import Mathlib

/-!
# Background changer: compositor, background normalisation and session lifecycle

A shallow embedding of the React component `AdvancedBackgroundChanger`
(files `AdvancedBackgroundChanger copy 2.jsx` and `AdvancedBackgroundChanger copy 3.jsx`).

* The 2D canvas is modelled per pixel with premultiplied colour over `ℚ`; the
  operators are the Porter-Duff ones the source selects through
  `globalCompositeOperation`.
* What the browser rasteriser computes (resampling of `drawImage`, the CSS
  `blur` filter, gradient paint) is not part of the repository and is taken as
  a parameter `Rasterizer`.
* `handleBackgroundUpload` is modelled by the geometry it computes; JavaScript
  numbers are IEEE 754 doubles, modelled as the rationals they denote with every
  operation rounded to the nearest double.
* The component is a state record (`useState` values, refs, the video and canvas
  elements, asynchronous work in flight) with one step function per event: the
  handler runs, then React commits and re-runs the webcam effect when one of
  its dependencies changed.
* The frame loop inside `Camera` belongs to `@mediapipe/camera_utils`; it is
  modelled after the frame scheduler of the specification.
-/

namespace Background

/-! ## Pixels and layers -/

/-- Canvas pixel: colour channels on the 0..255 scale, premultiplied by the
alpha `a`, which ranges over [0,1]. An opaque colour has `a = 1`. -/
@[ext] structure Px where
  r : ℚ
  g : ℚ
  b : ℚ
  a : ℚ
deriving DecidableEq

/-- Transparent black, the value of a cleared canvas pixel. -/
def Px.transparent : Px := ⟨0, 0, 0, 0⟩

/-- Fully opaque colour. -/
def Px.solid (r g b : ℚ) : Px := ⟨r, g, b, 1⟩

/-- The fill colour `'#00FF00'`. -/
def green00FF00 : Px := Px.solid 0 255 0

/-- A raster addressed by column `x` and row `y`. -/
abbrev Layer := ℕ → ℕ → Px

/-- An image source (`results.segmentationMask`, `results.image`, an `Image` element). -/
structure Image where
  width : ℕ
  height : ℕ
  data : Layer

/-- Values of `globalCompositeOperation` used by the source. -/
inductive CompositeOp where
  | sourceOver
  | sourceIn
  | destinationAtop
  | multiply
deriving DecidableEq

/-- Values of `ctx.filter` used by the source. -/
inductive CanvasFilter where
  | none
  | blur (px : ℕ)
deriving DecidableEq

/-- A gradient made by `createRadialGradient` followed by `addColorStop` calls. -/
structure RadialGradient where
  x0 : ℚ
  y0 : ℚ
  r0 : ℚ
  x1 : ℚ
  y1 : ℚ
  r1 : ℚ
  stops : List (ℚ × Px)

/-- Values of `ctx.fillStyle`. -/
inductive FillStyle where
  | color (c : Px)
  | gradient (gr : RadialGradient)

/-- The part of the browser the source relies on but does not contain. -/
structure Rasterizer where
  /-- The source image of `drawImage(image, dx, dy, dw, dh)` resampled to a `dw × dh` grid. -/
  resample : Image → ℕ → ℕ → Layer
  /-- The CSS filter `blur(r px)` applied to a rendered layer. -/
  blur : ℕ → Layer → Layer
  /-- The paint of a radial gradient at each pixel. -/
  gradientPaint : RadialGradient → Layer

/-- Porter-Duff compositing of a source pixel `s` onto the backdrop `d`
(premultiplied form: `co = Fa·cs + Fb·cb`, `αo = Fa·αs + Fb·αb`);
`multiply` is the separable blend mode followed by source-over. -/
def blend : CompositeOp → Px → Px → Px
  | .sourceOver, s, d =>
      ⟨s.r + d.r * (1 - s.a), s.g + d.g * (1 - s.a), s.b + d.b * (1 - s.a), s.a + d.a * (1 - s.a)⟩
  | .sourceIn, s, d =>
      ⟨s.r * d.a, s.g * d.a, s.b * d.a, s.a * d.a⟩
  | .destinationAtop, s, d =>
      ⟨s.r * (1 - d.a) + d.r * s.a, s.g * (1 - d.a) + d.g * s.a, s.b * (1 - d.a) + d.b * s.a,
        s.a * (1 - d.a) + d.a * s.a⟩
  | .multiply, s, d =>
      ⟨s.r * (1 - d.a) + d.r * (1 - s.a) + s.r * d.r / 255,
        s.g * (1 - d.a) + d.g * (1 - s.a) + s.g * d.g / 255,
        s.b * (1 - d.a) + d.b * (1 - s.a) + s.b * d.b / 255,
        s.a + d.a * (1 - s.a)⟩

/-! ## The 2D rendering context -/

/-- The drawing state that `save` and `restore` push and pop. -/
structure DrawState where
  globalCompositeOperation : CompositeOp
  filter : CanvasFilter
  fillStyle : FillStyle

/-- Initial drawing state of a context. -/
def DrawState.initial : DrawState :=
  ⟨.sourceOver, .none, .color (Px.solid 0 0 0)⟩

/-- A canvas with its 2D context. -/
structure Ctx where
  width : ℕ
  height : ℕ
  bitmap : Layer
  state : DrawState
  stack : List DrawState

namespace Ctx

/-- Model of `ctx.save()`. -/
def save (c : Ctx) : Ctx := { c with stack := c.state :: c.stack }

/-- Model of `ctx.restore()`. -/
def restore (c : Ctx) : Ctx :=
  match c.stack with
  | [] => c
  | s :: rest => { c with state := s, stack := rest }

/-- Assignment to `ctx.globalCompositeOperation`. -/
def setOp (c : Ctx) (op : CompositeOp) : Ctx :=
  { c with state := { c.state with globalCompositeOperation := op } }

/-- Assignment to `ctx.filter`. -/
def setFilter (c : Ctx) (f : CanvasFilter) : Ctx :=
  { c with state := { c.state with filter := f } }

/-- Assignment to `ctx.fillStyle`. -/
def setFillStyle (c : Ctx) (s : FillStyle) : Ctx :=
  { c with state := { c.state with fillStyle := s } }

/-- Whether pixel `(x, y)` lies in the rectangle with origin `(rx, ry)` and size `rw × rh`. -/
def inRect (rx ry rw rh x y : ℕ) : Bool :=
  decide (rx ≤ x) && decide (x < rx + rw) && decide (ry ≤ y) && decide (y < ry + rh)

/-- Model of `ctx.clearRect(x, y, w, h)`: the pixels of the rectangle become transparent black. -/
def clearRect (c : Ctx) (rx ry rw rh : ℕ) : Ctx :=
  { c with bitmap := fun x y => if inRect rx ry rw rh x y then Px.transparent else c.bitmap x y }

/-- The current filter applied to a rendered layer. -/
def applyFilter (R : Rasterizer) (f : CanvasFilter) (A : Layer) : Layer :=
  match f with
  | .none => A
  | .blur r => R.blur r A

/-- The drawing model: the rendered layer `A` goes through the current filter, and the
result is composited onto every pixel of the canvas with the current operator. -/
def composite (R : Rasterizer) (c : Ctx) (A : Layer) : Ctx :=
  { c with bitmap := fun x y =>
      if decide (x < c.width) && decide (y < c.height) then
        blend c.state.globalCompositeOperation (applyFilter R c.state.filter A x y) (c.bitmap x y)
      else c.bitmap x y }

/-- The layer `drawImage(image, dx, dy, dw, dh)` renders before filtering: the image
resampled into the destination rectangle, nothing elsewhere. -/
def imageLayer (R : Rasterizer) (image : Image) (dx dy dw dh : ℕ) : Layer :=
  fun x y =>
    if inRect dx dy dw dh x y then R.resample image dw dh (x - dx) (y - dy) else Px.transparent

/-- Model of `ctx.drawImage(image, dx, dy, dw, dh)`. -/
def drawImage (R : Rasterizer) (c : Ctx) (image : Image) (dx dy dw dh : ℕ) : Ctx :=
  composite R c (imageLayer R image dx dy dw dh)

/-- The paint the current `fillStyle` gives at a pixel. -/
def paint (R : Rasterizer) (s : FillStyle) : Layer :=
  match s with
  | .color col => fun _ _ => col
  | .gradient gr => R.gradientPaint gr

/-- Model of `ctx.fillRect(x, y, w, h)`. -/
def fillRect (R : Rasterizer) (c : Ctx) (rx ry rw rh : ℕ) : Ctx :=
  composite R c (fun x y =>
    if inRect rx ry rw rh x y then paint R c.state.fillStyle x y else Px.transparent)

end Ctx

/-- The argument MediaPipe passes to the `onResults` callback. -/
structure Results where
  segmentationMask : Image
  image : Image

/-! ## `onResults`, file `AdvancedBackgroundChanger copy 2.jsx` -/

namespace Copy2

/-- Model of `onResults` (copy 2, lines 112-135). -/
def onResults (R : Rasterizer) (backgroundImage : Option Image) (canvas : Ctx)
    (results : Results) : Ctx :=
  let ctx := canvas.save
  let ctx := ctx.clearRect 0 0 canvas.width canvas.height
  let ctx := ctx.drawImage R results.segmentationMask 0 0 canvas.width canvas.height
  let ctx := ctx.setOp .sourceIn
  let ctx := ctx.drawImage R results.image 0 0 canvas.width canvas.height
  let ctx := ctx.setOp .destinationAtop
  let ctx :=
    match backgroundImage with
    | some bg => ctx.drawImage R bg 0 0 canvas.width canvas.height
    | none => (ctx.setFillStyle (.color green00FF00)).fillRect R 0 0 canvas.width canvas.height
  ctx.restore

end Copy2

/-! ## `onResults`, file `AdvancedBackgroundChanger copy 3.jsx` -/

namespace Copy3

/-- The vignette gradient built in `onResults` (copy 3, lines 139-144). -/
def vignette (canvas : Ctx) : RadialGradient :=
  { x0 := (canvas.width : ℚ) / 2, y0 := (canvas.height : ℚ) / 2, r0 := 0
    x1 := (canvas.width : ℚ) / 2, y1 := (canvas.height : ℚ) / 2, r1 := (canvas.width : ℚ) / 2
    stops := [(0, ⟨0, 0, 0, 0⟩), (1, ⟨0, 0, 0, 3 / 10⟩)] }

/-- Model of `onResults` (copy 3, lines 110-155). -/
def onResults (R : Rasterizer) (backgroundImage : Option Image) (canvas : Ctx)
    (results : Results) : Ctx :=
  let ctx := canvas.save
  let ctx := ctx.clearRect 0 0 canvas.width canvas.height
  let ctx := ctx.drawImage R results.segmentationMask 0 0 canvas.width canvas.height
  let ctx := ctx.setFilter (.blur 1)
  let ctx := ctx.setOp .sourceIn
  let ctx := ctx.drawImage R results.image 0 0 canvas.width canvas.height
  let ctx := ctx.setFilter .none
  let ctx := ctx.setOp .destinationAtop
  let ctx :=
    match backgroundImage with
    | some bg =>
        let ctx := ctx.setFilter (.blur 2)
        let ctx := ctx.drawImage R bg 0 0 canvas.width canvas.height
        let ctx := ctx.setOp .multiply
        let ctx := ctx.setFillStyle (.gradient (vignette canvas))
        ctx.fillRect R 0 0 canvas.width canvas.height
    | none => (ctx.setFillStyle (.color green00FF00)).fillRect R 0 0 canvas.width canvas.height
  ctx.restore

end Copy3

/-! ## Edge softening as the specification words it -/

namespace Spec

/-- Follows the specification (section 4.5, step 2, with the fallback colour as
background): the low-radius blur is applied to the mask before blending, and the
frame is then blended in unblurred. -/
def onResultsMaskSoftened (R : Rasterizer) (canvas : Ctx) (results : Results) : Ctx :=
  let ctx := canvas.save
  let ctx := ctx.clearRect 0 0 canvas.width canvas.height
  let ctx := ctx.setFilter (.blur 1)
  let ctx := ctx.drawImage R results.segmentationMask 0 0 canvas.width canvas.height
  let ctx := ctx.setFilter .none
  let ctx := ctx.setOp .sourceIn
  let ctx := ctx.drawImage R results.image 0 0 canvas.width canvas.height
  let ctx := ctx.setOp .destinationAtop
  let ctx := (ctx.setFillStyle (.color green00FF00)).fillRect R 0 0 canvas.width canvas.height
  ctx.restore

end Spec

/-! ## A concrete rasteriser and a three-pixel scene -/

/-- Channel-wise mean of three pixels. -/
def Px.mean3 (p q s : Px) : Px :=
  ⟨(p.r + q.r + s.r) / 3, (p.g + q.g + s.g) / 3, (p.b + q.b + s.b) / 3, (p.a + q.a + s.a) / 3⟩

/-- A rasteriser for evaluation: `drawImage` samples the source pixel for pixel,
`blur` is a horizontal three-tap box filter (transparent beyond the left edge),
and gradients paint nothing. -/
def boxRasterizer : Rasterizer where
  resample := fun image _ _ x y => image.data x y
  blur := fun _ A x y =>
    Px.mean3 (if x = 0 then Px.transparent else A (x - 1) y) (A x y) (A (x + 1) y)
  gradientPaint := fun _ _ _ => Px.transparent

/-- A 3×1 canvas in its initial drawing state. -/
def canvas3x1 : Ctx :=
  { width := 3, height := 1, bitmap := fun _ _ => Px.transparent,
    state := DrawState.initial, stack := [] }

/-- A 3×1 result with a hard mask edge: the person covers pixel 0 only; the frame
is white at pixel 0 and black at pixels 1 and 2. -/
def hardEdgeResults : Results where
  segmentationMask :=
    { width := 3, height := 1
      data := fun x _ => if x = 0 then Px.solid 255 255 255 else Px.transparent }
  image :=
    { width := 3, height := 1
      data := fun x _ => if x = 0 then Px.solid 255 255 255 else Px.solid 0 0 0 }

/-- A 3×1 result whose mask is half opaque at pixel 1: the frame is the colour
(200, 100, 40) there and black elsewhere. -/
def halfMaskResults : Results where
  segmentationMask :=
    { width := 3, height := 1
      data := fun x _ => if x = 1 then ⟨255 / 2, 255 / 2, 255 / 2, 1 / 2⟩ else Px.transparent }
  image :=
    { width := 3, height := 1
      data := fun x _ => if x = 1 then Px.solid 200 100 40 else Px.solid 0 0 0 }

/-- A 3×1 background image of the uniform colour (10, 20, 30). -/
def plainBackground : Image :=
  { width := 3, height := 1, data := fun _ _ => Px.solid 10 20 30 }

/-! ## JavaScript numbers -/

/-- Round to the nearest integer, ties to the even one. -/
def roundTiesEven (x : ℚ) : ℤ :=
  if x - ⌊x⌋ < 1 / 2 then ⌊x⌋
  else if 1 / 2 < x - ⌊x⌋ then ⌊x⌋ + 1
  else if ⌊x⌋ % 2 = 0 then ⌊x⌋ else ⌊x⌋ + 1

/-- Spacing of the doubles around `q`: `2 ^ (e - 52)` for `2 ^ e ≤ |q| < 2 ^ (e + 1)`. -/
def ulp (q : ℚ) : ℚ := (2 : ℚ) ^ (Int.log 2 |q| - 52)

/-- The IEEE 754 binary64 number nearest to `q` (ties to even), which is the result of a
JavaScript arithmetic operation whose exact result is `q`. `img.width`, `img.height`,
`videoWidth` and `videoHeight` are `unsigned long` values, below `2 ^ 32`, so the
quotients, products and differences of lines 173-179 neither overflow nor reach the
subnormal range, and rounding is rounding to 53 significant bits. -/
def fl (q : ℚ) : ℚ := (roundTiesEven (q / ulp q) : ℚ) * ulp q

/-! ## `handleBackgroundUpload`, file `AdvancedBackgroundChanger copy 3.jsx` -/

/-- What `img.onload` computes: the size of `tempCanvas` and the arguments of
`tempCtx.drawImage(img, x, y, img.width * scale, img.height * scale)`. -/
structure CoverFit where
  canvasWidth : ℕ
  canvasHeight : ℕ
  scale : ℚ
  x : ℚ
  y : ℚ
  drawWidth : ℚ
  drawHeight : ℚ
deriving DecidableEq

namespace Copy3

/-- Model of the body of `img.onload` in `handleBackgroundUpload` (copy 3, lines 163-186);
`videoWidth`, `videoHeight` are `videoRef.current.videoWidth` and `.videoHeight`. Every
division, product and difference is rounded to a double, as JavaScript does; `Math.max`
is exact. For a zero `img.width` or `img.height` JavaScript yields `Infinity` or `NaN`,
which this model does not hold. -/
def handleBackgroundUpload (imgWidth imgHeight videoWidth videoHeight : ℕ) : CoverFit :=
  let tempCanvasWidth := videoWidth
  let tempCanvasHeight := videoHeight
  let scale : ℚ :=
    max (fl ((tempCanvasWidth : ℚ) / imgWidth)) (fl ((tempCanvasHeight : ℚ) / imgHeight))
  let x : ℚ := fl (fl ((tempCanvasWidth : ℚ) - fl (imgWidth * scale)) / 2)
  let y : ℚ := fl (fl ((tempCanvasHeight : ℚ) - fl (imgHeight * scale)) / 2)
  { canvasWidth := tempCanvasWidth, canvasHeight := tempCanvasHeight, scale := scale,
    x := x, y := y, drawWidth := fl (imgWidth * scale), drawHeight := fl (imgHeight * scale) }

end Copy3

/-! ## The component: state, refs, effects and event handlers -/

/-- Which of the two files is modelled. -/
inductive Variant where
  | copy2
  | copy3
deriving DecidableEq

/-- The three messages passed to `setError`. -/
inductive ErrorText where
  /-- Text "Failed to load the segmentation model. Please try again later." -/
  | modelLoad
  /-- Text "Failed to access the webcam. Please make sure it's connected and you've granted
  permission." -/
  | cameraAccess
  /-- Text "An error occurred while processing the video. Please try again." -/
  | processing
deriving DecidableEq

/-- An exception that escapes an effect; React then unmounts the component. -/
inductive JsError where
  /-- Property access on `null`: the call `selfieSegmentationRef.current.onResults(...)`. -/
  | typeErrorNullModel
deriving DecidableEq

/-- A `MediaStreamTrack`; `track.stop()` sets `stopped`. -/
structure Track where
  stopped : Bool
deriving DecidableEq

/-- A `SelfieSegmentation` instance held in `selfieSegmentationRef.current`. -/
structure Segmenter where
  optionsSet : Bool
  onResultsRegistered : Bool
deriving DecidableEq

/-- Modelled from the spec: the frame loop a started `Camera` runs; the class comes from
the package `@mediapipe/camera_utils` and is not among the repository's files. Following
section 4.3, a loop that is inferring records a new frame as its latest pending frame, and
a loop that is not inferring submits the frame: it calls `onFrame`, which awaits
`selfieSegmentationRef.current.send(...)`. -/
structure FrameLoop where
  /-- The `send` call issued by this loop's `onFrame` has not settled. -/
  inferring : Bool
  /-- The latest frame that arrived while inferring, if any. -/
  pendingFrame : Option ℕ
deriving DecidableEq

/-- The `Image` object held in the `backgroundImage` state. `ident` is its object
identity, which is what React compares in a dependency array; `width`, `height` are the
dimensions of the picture its `src` encodes; `decoded` says whether that picture has
loaded: until then the element reports width and height 0. -/
structure BackgroundImg where
  ident : ℕ
  width : ℕ
  height : ℕ
  decoded : Bool
deriving DecidableEq

/-- The value of the property `backgroundImage.width` at this moment. -/
def BackgroundImg.currentWidth (b : BackgroundImg) : ℕ := if b.decoded then b.width else 0

/-- The value of the property `backgroundImage.height` at this moment. -/
def BackgroundImg.currentHeight (b : BackgroundImg) : ℕ := if b.decoded then b.height else 0

/-- State of the mounted component together with the DOM objects and the
asynchronous work it has started. -/
structure Component where
  /-- State `backgroundImage`. -/
  backgroundImage : Option BackgroundImg
  /-- State `isWebcamActive`. -/
  isWebcamActive : Bool
  /-- State `isVideoReady`. -/
  isVideoReady : Bool
  /-- State `error`. -/
  error : Option ErrorText
  /-- Ref `selfieSegmentationRef.current`. -/
  selfieSegmentationRef : Option Segmenter
  /-- Property `videoRef.current.srcObject`, a stream given by its tracks. -/
  srcObject : Option (List Track)
  /-- Property `videoRef.current.videoWidth`. -/
  videoWidth : ℕ
  /-- Property `videoRef.current.videoHeight`. -/
  videoHeight : ℕ
  /-- An `onloadedmetadata` handler is installed and its event has not fired yet. -/
  awaitingMetadata : Bool
  /-- Property `canvasRef.current.width`. -/
  canvasWidth : ℕ
  /-- Property `canvasRef.current.height`. -/
  canvasHeight : ℕ
  /-- Number of `getUserMedia` promises of `startWebcam` not yet settled. -/
  pendingGetUserMedia : ℕ
  /-- Number of `getUserMedia` calls made by `startWebcam` so far. -/
  acquisitions : ℕ
  /-- The frame loops of the `Camera` objects constructed and started by `processFrame`
  so far, oldest first; the source never calls `stop()` on a `Camera`. -/
  cameras : List FrameLoop
  /-- Number of files handed to `FileReader` whose image has not loaded yet. -/
  pendingUploads : ℕ
  /-- Number of `initialize()` promises not yet settled. -/
  pendingInit : ℕ
  /-- Number of times the model effect has run `loadModel`. -/
  modelEffectRuns : ℕ
  /-- Next fresh object identity for an `Image`. -/
  nextIdent : ℕ
  /-- Environment: whether `new Camera(...)` or `camera.start()` throws. -/
  cameraThrows : Bool
  /-- Number of calls MediaPipe has made to the listener registered with `onResults`;
  each call draws a composite. -/
  onResultsCalls : ℕ
  /-- An exception escaped an effect. -/
  raised : Option JsError
deriving DecidableEq

namespace Component

/-- The component right after its first render: the `useState` and `useRef` initial values. -/
def initial : Component :=
  { backgroundImage := none, isWebcamActive := false, isVideoReady := false, error := none,
    selfieSegmentationRef := none, srcObject := none, videoWidth := 0, videoHeight := 0,
    awaitingMetadata := false, canvasWidth := 300, canvasHeight := 150,
    pendingGetUserMedia := 0, acquisitions := 0, cameras := [], pendingUploads := 0,
    pendingInit := 0, modelEffectRuns := 0, nextIdent := 0, cameraThrows := false,
    onResultsCalls := 0, raised := none }

/-- Model of `loadModel` up to its first suspension point. The constructor and
`setOptions` may throw (environment); copy 3 then awaits `initialize()`, copy 2 does not. -/
def loadModel (v : Variant) (ctorThrows setOptionsThrows : Bool) (c : Component) : Component :=
  let c := { c with modelEffectRuns := c.modelEffectRuns + 1 }
  if ctorThrows then { c with error := some .modelLoad }
  else
    let c := { c with selfieSegmentationRef := some ⟨false, false⟩ }
    if setOptionsThrows then { c with error := some .modelLoad }
    else
      let c := { c with selfieSegmentationRef := some ⟨true, false⟩ }
      match v with
      | .copy2 => c
      | .copy3 => { c with pendingInit := c.pendingInit + 1 }

/-- The promise of `await selfieSegmentationRef.current.initialize()` settles;
a rejection lands in the `catch` of `loadModel`. -/
def initSettled (ok : Bool) (c : Component) : Component :=
  let c := { c with pendingInit := c.pendingInit - 1 }
  if ok then c else { c with error := some .modelLoad }

/-- Model of `startWebcam` up to `await navigator.mediaDevices.getUserMedia(...)`. -/
def startWebcam (c : Component) : Component :=
  { c with pendingGetUserMedia := c.pendingGetUserMedia + 1, acquisitions := c.acquisitions + 1 }

/-- Continuation of `startWebcam` when `getUserMedia` fulfils with a stream of
`tracks` live tracks: the stream is assigned to `srcObject` and the `onloadedmetadata`
handler is installed. A video element whose source was just replaced has no metadata yet
and reports `videoWidth = videoHeight = 0` until `loadedmetadata` fires. -/
def getUserMediaResolved (tracks : ℕ) (c : Component) : Component :=
  { c with pendingGetUserMedia := c.pendingGetUserMedia - 1,
           srcObject := some (List.replicate tracks ⟨false⟩),
           videoWidth := 0, videoHeight := 0,
           awaitingMetadata := true }

/-- The `catch` of `startWebcam`, reached when `getUserMedia` rejects. -/
def getUserMediaRejected (c : Component) : Component :=
  { c with pendingGetUserMedia := c.pendingGetUserMedia - 1, error := some .cameraAccess }

/-- The `onloadedmetadata` handler installed by `startWebcam`. The stream was requested
with `width: { exact: 1280 }, height: { exact: 720 }`, which are the video's dimensions
once its metadata is loaded. -/
def onloadedmetadata (c : Component) : Component :=
  { c with awaitingMetadata := false, videoWidth := 1280, videoHeight := 720,
           isWebcamActive := true, isVideoReady := true }

/-- Model of `processFrame` (copy 3, lines 69-91). The `Camera` is constructed with
`width: 1280, height: 720` in copy 3 and with `width: 1920, height: 1080` in copy 2. -/
def processFrame (c : Component) : Component :=
  if c.selfieSegmentationRef.isNone || !c.isWebcamActive || !c.isVideoReady then c
  else
    let c := { c with canvasWidth := c.videoWidth, canvasHeight := c.videoHeight }
    if c.cameraThrows then { c with error := some .processing }
    else { c with cameras := c.cameras ++ [⟨false, none⟩] }

/-- The frame loop at position `i` replaced by `f` of it. -/
def modifyLoop (f : FrameLoop → FrameLoop) : ℕ → List FrameLoop → List FrameLoop
  | _, [] => []
  | 0, l :: rest => f l :: rest
  | i + 1, l :: rest => l :: modifyLoop f i rest

/-- Modelled from the spec: a new frame reaches the loop of camera `i` (section 4.3,
step 2). -/
def cameraFrame (i frame : ℕ) (c : Component) : Component :=
  let arrive : FrameLoop → FrameLoop := fun l =>
    if l.inferring then { l with pendingFrame := some frame } else { l with inferring := true }
  { c with cameras := modifyLoop arrive i c.cameras }

/-- Modelled from the spec: the `send` awaited by the loop of camera `i` settles
(section 4.3, step 3); a pending frame is submitted at once, so the loop stays inferring.
MediaPipe hands the results to the listener registered with `onResults`, if there is
one. -/
def sendSettled (i : ℕ) (c : Component) : Component :=
  let settle : FrameLoop → FrameLoop := fun l =>
    match l.pendingFrame with
    | some _ => { l with pendingFrame := none }
    | none => { l with inferring := false }
  let delivered : Bool :=
    match c.selfieSegmentationRef with
    | some seg => seg.onResultsRegistered
    | none => false
  { c with cameras := modifyLoop settle i c.cameras,
           onResultsCalls := if delivered then c.onResultsCalls + 1 else c.onResultsCalls }

/-- Number of `selfieSegmentation.send` calls that have not settled. -/
def outstandingSends (c : Component) : ℕ :=
  (c.cameras.filter (·.inferring)).length

/-- Number of frames recorded as pending. -/
def pendingFrames (c : Component) : ℕ :=
  (c.cameras.filter (·.pendingFrame.isSome)).length

/-- The function the webcam effect returns: every track of `srcObject` is stopped
(`animationFrameId` is never assigned, so nothing is cancelled). -/
def cleanup (c : Component) : Component :=
  { c with srcObject := c.srcObject.map (List.map fun _ => ⟨true⟩) }

/-- Body of the webcam effect (copy 3, lines 93-98). -/
def webcamEffect (c : Component) : Component :=
  if c.isWebcamActive && c.isVideoReady then
    match c.selfieSegmentationRef with
    | none => { c with raised := some .typeErrorNullModel }
    | some seg =>
        processFrame { c with selfieSegmentationRef := some { seg with onResultsRegistered := true } }
  else if c.isWebcamActive then startWebcam c
  else c

/-- The dependency array `[isWebcamActive, isVideoReady, backgroundImage]`. -/
def deps (c : Component) : Bool × Bool × Option ℕ :=
  (c.isWebcamActive, c.isVideoReady, c.backgroundImage.map (·.ident))

/-- React commits the update from `prev` to `next`: when a dependency of the webcam
effect changed, the previous cleanup runs and then the effect body. -/
def commit (prev next : Component) : Component :=
  if deps prev = deps next then next else webcamEffect (cleanup next)

/-- Model of `handleWebcamToggle`: the three state setters. -/
def handleWebcamToggle (c : Component) : Component :=
  { c with isWebcamActive := !c.isWebcamActive, isVideoReady := false, error := none }

/-- Model of `handleBackgroundUpload` up to `reader.readAsDataURL(file)`. -/
def chooseFile (c : Component) : Component :=
  { c with pendingUploads := c.pendingUploads + 1 }

/-- Model of `img.onload` in `handleBackgroundUpload` for an image of `w × h` pixels.
Copy 2 stores the loaded image itself. Copy 3 stores `processedImg`, a new `Image` whose
`src` was just set to the data URL of `tempCanvas`: it encodes a picture of the size of
`tempCanvas` and has not loaded yet. -/
def imgOnload (v : Variant) (w h : ℕ) (c : Component) : Component :=
  let stored : BackgroundImg :=
    match v with
    | .copy2 => ⟨c.nextIdent, w, h, true⟩
    | .copy3 =>
        ⟨c.nextIdent,
         (Copy3.handleBackgroundUpload w h c.videoWidth c.videoHeight).canvasWidth,
         (Copy3.handleBackgroundUpload w h c.videoWidth c.videoHeight).canvasHeight, false⟩
  { c with pendingUploads := c.pendingUploads - 1, nextIdent := c.nextIdent + 1,
           backgroundImage := some stored }

/-- The data URL of the stored background finishes loading; the `Image` object is the
same, so no state changes. -/
def backgroundDecoded (c : Component) : Component :=
  { c with backgroundImage := c.backgroundImage.map fun b => { b with decoded := true } }

end Component

/-- What can happen to the mounted component. -/
inductive Event where
  /-- The model effect runs `loadModel` (on mount; in copy 3 also when `segmentationConfig` changes). -/
  | loadModel (ctorThrows setOptionsThrows : Bool)
  /-- A pending `initialize()` settles. -/
  | initSettled (ok : Bool)
  /-- Click on the webcam button. -/
  | toggle
  /-- A pending `getUserMedia` fulfils. -/
  | gumResolved (tracks : ℕ)
  /-- A pending `getUserMedia` rejects. -/
  | gumRejected
  /-- The video element fires `loadedmetadata`. -/
  | loadedMetadata
  /-- The user picks a file in the background input. -/
  | chooseFile
  /-- The image of a picked file finishes loading. -/
  | imgLoaded (w h : ℕ)
  /-- The environment decides whether constructing a `Camera` throws from now on. -/
  | cameraFault (throws : Bool)
  /-- The video delivers frame `frame` to the loop of camera `i`. -/
  | cameraFrame (i frame : ℕ)
  /-- The `send` call awaited by the loop of camera `i` settles. -/
  | sendSettled (i : ℕ)
  /-- The data URL of the stored background image finishes loading. -/
  | backgroundDecoded
deriving DecidableEq

namespace Component

/-- Whether an event can occur: the model effect of copy 2 has the dependency array `[]`
and runs once, that of copy 3 runs again when `segmentationConfig` changes; promises settle
only while pending; the file input carries `disabled={!isWebcamActive || !isVideoReady}`;
a frame can reach the loop of any camera that was started, since none is ever stopped and
`onFrame` has no guard; a data URL loads only if it encodes a picture of positive size;
nothing reaches an unmounted component. -/
def enabled (v : Variant) (c : Component) (e : Event) : Bool :=
  c.raised.isNone &&
  match e with
  | .loadModel _ _ =>
      (match v with
       | .copy2 => decide (c.modelEffectRuns = 0)
       | .copy3 => true)
  | .initSettled _ => decide (0 < c.pendingInit)
  | .toggle => true
  | .gumResolved _ => decide (0 < c.pendingGetUserMedia)
  | .gumRejected => decide (0 < c.pendingGetUserMedia)
  | .loadedMetadata => c.awaitingMetadata
  | .chooseFile => c.isWebcamActive && c.isVideoReady
  | .imgLoaded _ _ => decide (0 < c.pendingUploads)
  | .cameraFault _ => true
  | .cameraFrame i _ => decide (i < c.cameras.length)
  | .sendSettled i =>
      (match c.cameras.get? i with
       | some l => l.inferring
       | none => false)
  | .backgroundDecoded =>
      (match c.backgroundImage with
       | some b => !b.decoded && decide (0 < b.width) && decide (0 < b.height)
       | none => false)

/-- The handler of an event, before React commits the resulting state. -/
def handle (v : Variant) (c : Component) : Event → Component
  | .loadModel ctorThrows setOptionsThrows => loadModel v ctorThrows setOptionsThrows c
  | .initSettled ok => initSettled ok c
  | .toggle => handleWebcamToggle c
  | .gumResolved tracks => getUserMediaResolved tracks c
  | .gumRejected => getUserMediaRejected c
  | .loadedMetadata => onloadedmetadata c
  | .chooseFile => chooseFile c
  | .imgLoaded w h => imgOnload v w h c
  | .cameraFault throws => { c with cameraThrows := throws }
  | .cameraFrame i frame => cameraFrame i frame c
  | .sendSettled i => sendSettled i c
  | .backgroundDecoded => backgroundDecoded c

/-- One event: its handler, then the commit. An event that cannot occur changes nothing. -/
def step (v : Variant) (c : Component) (e : Event) : Component :=
  if enabled v c e then commit c (handle v c e) else c

/-- A sequence of events. -/
def run (v : Variant) (c : Component) (events : List Event) : Component :=
  events.foldl (step v) c

/-- Whether every event of the sequence can occur when its turn comes. -/
def feasible (v : Variant) (c : Component) : List Event → Bool
  | [] => true
  | e :: rest => enabled v c e && feasible v (step v c e) rest

/-- The webcam button clicked `n` times in sequence. -/
def toggles (v : Variant) (n : ℕ) (c : Component) : Component :=
  run v c (List.replicate n .toggle)

/-- Every track of the stream attached to the video element is stopped. -/
def allTracksStopped (c : Component) : Bool :=
  match c.srcObject with
  | none => true
  | some tracks => tracks.all (·.stopped)

end Component

/-- The session the tutorial path reaches: model loaded, webcam switched on, stream
acquired, metadata loaded. -/
def Component.startedSession : Component :=
  Component.run .copy3 Component.initial
    [.loadModel false false, .initSettled true, .toggle, .gumResolved 1, .loadedMetadata]

/-- An active session whose video element carries a stream with one live track. -/
def Component.liveSession : Component :=
  { Component.startedSession with srcObject := some [⟨false⟩] }

/-- The events of a background upload during an active session, followed by one frame
for each of the two cameras started so far. -/
def Component.uploadThenFrames : List Event :=
  [.loadModel false false, .initSettled true, .toggle, .gumResolved 1, .loadedMetadata,
   .chooseFile, .imgLoaded 100 100, .cameraFrame 0 1, .cameraFrame 1 1]

/-- The events that lead to a rejected acquisition after an earlier session: the session
is started, the webcam is switched off and on again, and the new `getUserMedia` call
rejects. -/
def Component.rejectionAfterSession : List Event :=
  [.loadModel false false, .initSettled true, .toggle, .gumResolved 1, .loadedMetadata,
   .toggle, .toggle, .gumRejected]

/-- The events that lead to a rejected acquisition while a second one is in flight: the
webcam button is clicked three times before any `getUserMedia` call settles, then one of
the two calls rejects. -/
def Component.rejectionWithSecondAcquisition : List Event :=
  [.loadModel false false, .initSettled true, .toggle, .toggle, .toggle, .gumRejected]

/-- As `rejectionWithSecondAcquisition`, but the other call fulfils before the rejection. -/
def Component.rejectionAwaitingMetadata : List Event :=
  [.loadModel false false, .initSettled true, .toggle, .toggle, .toggle, .gumResolved 1,
   .gumRejected]

/-- As `rejectionAwaitingMetadata`, but `loadedmetadata` also fires before the rejection. -/
def Component.rejectionWhenReady : List Event :=
  [.loadModel false false, .initSettled true, .toggle, .toggle, .toggle, .gumResolved 1,
   .loadedMetadata, .gumRejected]

/-- The events of an upload that finishes while the video has no metadata: a file is
picked during an active session, the webcam is switched off and on, `getUserMedia`
fulfils and `srcObject` is reassigned, and the picked image loads before
`loadedmetadata`. -/
def Component.uploadBeforeMetadata : List Event :=
  [.loadModel false false, .initSettled true, .toggle, .gumResolved 1, .loadedMetadata,
   .chooseFile, .toggle, .toggle, .gumResolved 1, .imgLoaded 100 100]

/-- The events of an upload during an active session followed by a frame whose `send`
settles before the data URL of the stored image has loaded. -/
def Component.compositeBeforeDecode : List Event :=
  [.loadModel false false, .initSettled true, .toggle, .gumResolved 1, .loadedMetadata,
   .chooseFile, .imgLoaded 100 100, .cameraFrame 1 1, .sendSettled 1]

/-- The events that lead to a rejected acquisition while an upload is still loading:
a file is picked during an active session, the webcam is switched off and on again, and
the new `getUserMedia` call rejects. -/
def Component.rejectionWithUploadPending : List Event :=
  [.loadModel false false, .initSettled true, .toggle, .gumResolved 1, .loadedMetadata,
   .chooseFile, .toggle, .toggle, .gumRejected]


/-! ## Pixel laws of `onResults` -/

theorem inRect_full {w h x y : ℕ} (hx : x < w) (hy : y < h) : Ctx.inRect 0 0 w h x y = true := by
  simp [Ctx.inRect, hx, hy]

theorem imageLayer_full (R : Rasterizer) (image : Image) {w h x y : ℕ} (hx : x < w) (hy : y < h) :
    Ctx.imageLayer R image 0 0 w h x y = R.resample image w h x y := by
  simp [Ctx.imageLayer, inRect_full hx hy]

/-- Copy 2, pixel by pixel: the three draws nest as three `blend`s over a cleared pixel. -/
theorem onResults2_pixel (R : Rasterizer) (background : Option Image) (canvas : Ctx)
    (results : Results) (x y : ℕ) (hx : x < canvas.width) (hy : y < canvas.height)
    (hop : canvas.state.globalCompositeOperation = .sourceOver)
    (hfl : canvas.state.filter = .none) :
    (Copy2.onResults R background canvas results).bitmap x y =
      blend .destinationAtop
        (match background with
          | some bg => R.resample bg canvas.width canvas.height x y
          | none => green00FF00)
        (blend .sourceIn (R.resample results.image canvas.width canvas.height x y)
          (blend .sourceOver
            (R.resample results.segmentationMask canvas.width canvas.height x y)
            Px.transparent)) := by
  cases background <;>
    simp [Copy2.onResults, Ctx.save, Ctx.restore, Ctx.clearRect, Ctx.drawImage, Ctx.fillRect,
      Ctx.composite, Ctx.setOp, Ctx.setFillStyle, Ctx.applyFilter, Ctx.paint, inRect_full hx hy,
      imageLayer_full, hx, hy, hop, hfl]

/-- Copy 3 without a background image, pixel by pixel: the mask enters unfiltered,
the frame enters through `blur(1px)`, the fill is unfiltered. -/
theorem onResults3_pixel_fallback (R : Rasterizer) (canvas : Ctx)
    (results : Results) (x y : ℕ) (hx : x < canvas.width) (hy : y < canvas.height)
    (hop : canvas.state.globalCompositeOperation = .sourceOver)
    (hfl : canvas.state.filter = .none) :
    (Copy3.onResults R none canvas results).bitmap x y =
      blend .destinationAtop green00FF00
        (blend .sourceIn
          (R.blur 1 (Ctx.imageLayer R results.image 0 0 canvas.width canvas.height) x y)
          (blend .sourceOver
            (R.resample results.segmentationMask canvas.width canvas.height x y)
            Px.transparent)) := by
  simp [Copy3.onResults, Ctx.save, Ctx.restore, Ctx.clearRect, Ctx.drawImage, Ctx.fillRect,
    Ctx.composite, Ctx.setOp, Ctx.setFillStyle, Ctx.setFilter, Ctx.applyFilter, Ctx.paint,
    inRect_full hx hy, imageLayer_full, hx, hy, hop, hfl]

/-- Both variants leave the drawing state and the save stack as they found them. -/
theorem onResults_restores_state (R : Rasterizer) (background : Option Image) (canvas : Ctx)
    (results : Results) :
    (Copy2.onResults R background canvas results).state = canvas.state ∧
    (Copy2.onResults R background canvas results).stack = canvas.stack ∧
    (Copy3.onResults R background canvas results).state = canvas.state ∧
    (Copy3.onResults R background canvas results).stack = canvas.stack := by
  cases background <;>
    simp [Copy2.onResults, Copy3.onResults, Ctx.save, Ctx.restore, Ctx.clearRect, Ctx.drawImage,
      Ctx.fillRect, Ctx.composite, Ctx.setOp, Ctx.setFillStyle, Ctx.setFilter]

/-- C1. Blend law of the effect-free compositor (copy 2): at a pixel of the canvas where
the mask has opacity `m` in [0,1] and the frame is the opaque colour `f`, the sequence
clearRect, mask (source-over), frame (source-in), background (destination-atop) leaves
the opaque colour `m·f + (1-m)·b`, where `b` is the opaque colour of the background image
at that pixel, or the fill colour (0, 255, 0) when there is no background image. -/
theorem onResults2_blend_law (R : Rasterizer) (canvas : Ctx) (results : Results) (x y : ℕ)
    (hx : x < canvas.width) (hy : y < canvas.height)
    (hop : canvas.state.globalCompositeOperation = .sourceOver)
    (hfl : canvas.state.filter = .none)
    (m fr fg fb : ℚ) (_hm0 : 0 ≤ m) (_hm1 : m ≤ 1)
    (hm : (R.resample results.segmentationMask canvas.width canvas.height x y).a = m)
    (hf : R.resample results.image canvas.width canvas.height x y = Px.solid fr fg fb) :
    (∀ (bg : Image) (br bgr bb : ℚ),
        R.resample bg canvas.width canvas.height x y = Px.solid br bgr bb →
        (Copy2.onResults R (some bg) canvas results).bitmap x y =
          Px.solid (m * fr + (1 - m) * br) (m * fg + (1 - m) * bgr) (m * fb + (1 - m) * bb)) ∧
    (Copy2.onResults R none canvas results).bitmap x y =
      Px.solid (m * fr + (1 - m) * 0) (m * fg + (1 - m) * 255) (m * fb + (1 - m) * 0) := by
  refine ⟨?_, ?_⟩
  · intro bg br bgr bb hb
    rw [onResults2_pixel R (some bg) canvas results x y hx hy hop hfl]
    simp only [hb, hf]
    ext <;> simp [blend, Px.solid, Px.transparent, hm] <;> ring
  · rw [onResults2_pixel R none canvas results x y hx hy hop hfl]
    simp only [hf]
    ext <;> simp [blend, Px.solid, Px.transparent, green00FF00, hm] <;> ring

/-- C1 at a concrete pixel: opacity 1/2, frame (200, 100, 40), background (10, 20, 30). -/
theorem onResults2_blend_law_witness :
    (Copy2.onResults boxRasterizer (some plainBackground) canvas3x1 halfMaskResults).bitmap 1 0 =
      Px.solid ((1 / 2) * 200 + (1 - 1 / 2) * 10) ((1 / 2) * 100 + (1 - 1 / 2) * 20)
        ((1 / 2) * 40 + (1 - 1 / 2) * 30) :=
  (onResults2_blend_law boxRasterizer canvas3x1 halfMaskResults 1 0 (by decide) (by decide)
    rfl rfl (1 / 2) 200 100 40 (by norm_num) (by norm_num) rfl rfl).1
    plainBackground 10 20 30 rfl

/-- C5. Fallback colour: with no background image, a pixel of the canvas where the mask
has opacity 0 comes out as the opaque colour #00FF00 (0, 255, 0, alpha 1), in copy 2 and in
copy 3 alike, whatever the `blur(1px)` filter makes of the frame. -/
theorem onResults_fallback_colour (R : Rasterizer) (canvas : Ctx) (results : Results) (x y : ℕ)
    (hx : x < canvas.width) (hy : y < canvas.height)
    (hop : canvas.state.globalCompositeOperation = .sourceOver)
    (hfl : canvas.state.filter = .none)
    (hm : (R.resample results.segmentationMask canvas.width canvas.height x y).a = 0) :
    (Copy2.onResults R none canvas results).bitmap x y = ⟨0, 255, 0, 1⟩ ∧
    (Copy3.onResults R none canvas results).bitmap x y = ⟨0, 255, 0, 1⟩ := by
  refine ⟨?_, ?_⟩
  · rw [onResults2_pixel R none canvas results x y hx hy hop hfl]
    ext <;> simp [blend, Px.solid, Px.transparent, green00FF00, hm]
  · rw [onResults3_pixel_fallback R canvas results x y hx hy hop hfl]
    ext <;> simp [blend, Px.solid, Px.transparent, green00FF00, hm]

/-- C5 at pixel 2 of the hard-edge scene, where the mask is transparent. -/
theorem onResults_fallback_colour_witness :
    (Copy2.onResults boxRasterizer none canvas3x1 hardEdgeResults).bitmap 2 0 = ⟨0, 255, 0, 1⟩ ∧
    (Copy3.onResults boxRasterizer none canvas3x1 hardEdgeResults).bitmap 2 0 = ⟨0, 255, 0, 1⟩ :=
  onResults_fallback_colour boxRasterizer canvas3x1 hardEdgeResults 2 0 (by decide) (by decide)
    rfl rfl rfl


/-- C10. Edge softening in copy 3, evaluated on the hard-edge scene with the box blur.
The source sets `blur(1px)` after the mask is drawn, so the filter acts on the frame.
At pixel 1, next to the edge, the blurred mask would have opacity 1/3 and the
specification's compositor gives (0, 170, 0); the code weights with the unblurred
opacity 0 and gives the pure fill colour. At pixel 0 the code weights the blurred
frame (85, 85, 85, alpha 2/3) with the unblurred opacity 1, the specification's
compositor weights the unblurred frame with the blurred opacity 1/3. -/
theorem onResults3_blur_hits_frame_not_mask :
    (Copy3.onResults boxRasterizer none canvas3x1 hardEdgeResults).bitmap 1 0 = Px.solid 0 255 0 ∧
    (Spec.onResultsMaskSoftened boxRasterizer canvas3x1 hardEdgeResults).bitmap 1 0 =
      Px.solid 0 170 0 ∧
    (Copy3.onResults boxRasterizer none canvas3x1 hardEdgeResults).bitmap 0 0 =
      Px.solid 85 170 85 ∧
    (Spec.onResultsMaskSoftened boxRasterizer canvas3x1 hardEdgeResults).bitmap 0 0 =
      Px.solid 85 255 85 := by
  refine ⟨?_, ?_, ?_, ?_⟩ <;>
    simp [Copy3.onResults, Spec.onResultsMaskSoftened, Ctx.save, Ctx.restore, Ctx.clearRect,
      Ctx.drawImage, Ctx.imageLayer, Ctx.fillRect, Ctx.composite, Ctx.setOp, Ctx.setFillStyle,
      Ctx.setFilter, Ctx.applyFilter, Ctx.paint, Ctx.inRect, boxRasterizer, canvas3x1,
      hardEdgeResults, DrawState.initial, blend, Px.solid, Px.transparent, Px.mean3,
      green00FF00] <;>
    norm_num

/-! ## Cover fit in `handleBackgroundUpload` -/

theorem roundTiesEven_sub_le (x : ℚ) : |(roundTiesEven x : ℚ) - x| ≤ 1 / 2 := by
  have h1 : (⌊x⌋ : ℚ) ≤ x := Int.floor_le x
  have h2 : x < ⌊x⌋ + 1 := Int.lt_floor_add_one x
  unfold roundTiesEven
  split_ifs with ha hb hc
  · rw [abs_le]; constructor <;> linarith
  · rw [abs_le]; push_cast; constructor <;> linarith
  · have : x - ⌊x⌋ = 1 / 2 := le_antisymm (not_lt.1 hb) (not_lt.1 ha)
    rw [abs_le]; constructor <;> linarith
  · have : x - ⌊x⌋ = 1 / 2 := le_antisymm (not_lt.1 hb) (not_lt.1 ha)
    rw [abs_le]; push_cast; constructor <;> linarith

theorem roundTiesEven_eq_of_abs_lt (x : ℚ) (n : ℤ) (h : |x - n| < 1 / 2) :
    roundTiesEven x = n := by
  have h' := roundTiesEven_sub_le x
  rw [abs_lt] at h
  rw [abs_le] at h'
  have h3 : |((roundTiesEven x : ℤ) : ℚ) - (n : ℚ)| < 1 := by
    rw [abs_lt]; constructor <;> linarith [h.1, h.2, h'.1, h'.2]
  have h4 : |roundTiesEven x - n| < 1 := by
    have : ((|roundTiesEven x - n| : ℤ) : ℚ) < 1 := by
      push_cast; exact h3
    exact_mod_cast this
  have h5 : roundTiesEven x - n = 0 := Int.abs_lt_one_iff.1 h4
  omega

theorem ulp_pos (q : ℚ) : 0 < ulp q := by
  unfold ulp; positivity

/-- Relative error of one rounding: at most `2 ^ -53`. -/
theorem fl_sub_le (q : ℚ) : |fl q - q| ≤ |q| / 2 ^ 53 := by
  rcases eq_or_ne q 0 with rfl | hq
  · simp [fl, roundTiesEven]
  have hu := ulp_pos q
  have h := roundTiesEven_sub_le (q / ulp q)
  have e1 : fl q - q = ((roundTiesEven (q / ulp q) : ℚ) - q / ulp q) * ulp q := by
    unfold fl; field_simp
  rw [e1, abs_mul, abs_of_pos hu]
  have hlog : (2 : ℚ) ^ Int.log 2 |q| ≤ |q| := by
    have := Int.zpow_log_le_self (b := 2) (r := |q|) (by norm_num) (abs_pos.2 hq)
    simpa using this
  have hul : ulp q = (2 : ℚ) ^ Int.log 2 |q| / 2 ^ 52 := by
    unfold ulp
    rw [zpow_sub₀ (by norm_num)]
    norm_num
  calc |(roundTiesEven (q / ulp q) : ℚ) - q / ulp q| * ulp q
      ≤ 1 / 2 * ulp q := mul_le_mul_of_nonneg_right h hu.le
    _ = (2 : ℚ) ^ Int.log 2 |q| / 2 ^ 53 := by rw [hul]; ring
    _ ≤ |q| / 2 ^ 53 := by
        apply div_le_div_of_nonneg_right hlog; positivity

/-- Evaluation of `fl` from the exponent and the rounded significand. -/
theorem fl_eq (q : ℚ) (e m : ℤ) (h1 : (2 : ℚ) ^ e ≤ |q|) (h2 : |q| < (2 : ℚ) ^ (e + 1))
    (hm : |q / 2 ^ (e - 52) - m| < 1 / 2) : fl q = m * 2 ^ (e - 52) := by
  have hq : 0 < |q| := lt_of_lt_of_le (by positivity) h1
  have hlog : Int.log 2 |q| = e := by
    apply le_antisymm
    · have := (Int.lt_zpow_iff_log_lt (b := 2) (by norm_num) hq (x := e + 1)).1 (by simpa using h2)
      omega
    · exact (Int.zpow_le_iff_le_log (b := 2) (by norm_num) hq).1 (by simpa using h1)
  unfold fl ulp
  rw [hlog, roundTiesEven_eq_of_abs_lt _ m hm]

theorem fl_zero : fl 0 = 0 := by simp [fl, roundTiesEven]




theorem rounding_interval (q f u : ℚ) (h : |f - q| ≤ |q| * u) :
    (0 ≤ q → q * (1 - u) ≤ f ∧ f ≤ q * (1 + u)) ∧
    (q ≤ 0 → q * (1 + u) ≤ f ∧ f ≤ q * (1 - u)) := by
  rw [abs_le] at h
  constructor
  · intro hq
    rw [abs_of_nonneg hq] at h
    constructor <;> linarith [h.1, h.2]
  · intro hq
    rw [abs_of_nonpos hq] at h
    constructor <;> linarith [h.1, h.2]

/-- The geometry of one axis after three roundings: `W` is the rounded drawn size, `d` the
rounded difference `t - W`, `x` the rounded half of `d`. -/
theorem axis_bounds (t W d x u : ℚ) (hu0 : 0 ≤ u) (hu1 : u ≤ 1 / 4) (ht : 0 < t)
    (hW : t * (1 - u) ^ 2 ≤ W)
    (hd : |d - (t - W)| ≤ |t - W| * u) (hx : |x - d / 2| ≤ |d / 2| * u) :
    x ≤ t * (2 * u) ∧ t * (1 - 2 * u) ≤ x + W ∧
      |(0 - x) - (x + W - t)| ≤ |t - W| * (4 * u) := by
  have hd' := rounding_interval (t - W) d u hd
  have hx' := rounding_interval (d / 2) x u hx
  have hu2 : 0 ≤ u * u := mul_nonneg hu0 hu0
  rcases le_total 0 (t - W) with hD | hD
  · obtain ⟨hd1, hd2⟩ := hd'.1 hD
    have hd0 : 0 ≤ d := le_trans (mul_nonneg hD (by linarith)) hd1
    obtain ⟨hx1, hx2⟩ := hx'.1 (by linarith)
    have hx0 : 0 ≤ x := le_trans (mul_nonneg (by linarith) (by linarith)) hx1
    have hDle : t - W ≤ t * (2 * u) := by nlinarith
    have hdu : 0 ≤ d * u := mul_nonneg hd0 hu0
    have hDu : 0 ≤ (t - W) * u := mul_nonneg hD hu0
    have hDuu : 0 ≤ (t - W) * u * u := mul_nonneg hDu hu0
    have hx3 : 2 * x ≤ (t - W) * (1 + u) * (1 + u) := by
      have := mul_le_mul_of_nonneg_right hd2 (by linarith : (0 : ℚ) ≤ 1 + u)
      linarith
    have hx4 : (t - W) * (1 - u) * (1 - u) ≤ 2 * x := by
      have := mul_le_mul_of_nonneg_right hd1 (by linarith : (0 : ℚ) ≤ 1 - u)
      linarith
    refine ⟨?_, ?_, ?_⟩
    · nlinarith
    · nlinarith
    · rw [abs_of_nonneg hD, abs_le]
      constructor <;> nlinarith
  · obtain ⟨hd1, hd2⟩ := hd'.2 hD
    have hd0 : d ≤ 0 := le_trans hd2 (mul_nonpos_of_nonpos_of_nonneg hD (by linarith))
    obtain ⟨hx1, hx2⟩ := hx'.2 (by linarith)
    have hx0 : x ≤ 0 := le_trans hx2 (mul_nonpos_of_nonpos_of_nonneg (by linarith) (by linarith))
    have hdu : 0 ≤ -d * u := mul_nonneg (by linarith) hu0
    have hDu : 0 ≤ -(t - W) * u := mul_nonneg (by linarith) hu0
    have hDuu : 0 ≤ -(t - W) * u * u := mul_nonneg hDu hu0
    have hx3 : (t - W) * (1 + u) * (1 + u) ≤ 2 * x := by
      have := mul_le_mul_of_nonneg_right hd1 (by linarith : (0 : ℚ) ≤ 1 + u)
      linarith
    have hx4 : 2 * x ≤ (t - W) * (1 - u) * (1 - u) := by
      have := mul_le_mul_of_nonneg_right hd2 (by linarith : (0 : ℚ) ≤ 1 - u)
      linarith
    have hc : (1 + u) * (1 + u) ≤ 2 := by nlinarith
    have hx5 : (t - W) * 2 ≤ (t - W) * ((1 + u) * (1 + u)) :=
      mul_le_mul_of_nonpos_left hc hD
    have htu : 0 ≤ t * u := mul_nonneg ht.le hu0
    refine ⟨?_, ?_, ?_⟩
    · linarith
    · linarith
    · have hq : -(t - W) * u * u ≤ -(t - W) * u * (1 / 4) :=
        mul_le_mul_of_nonneg_left hu1 hDu
      rw [abs_of_nonpos hD, abs_le]
      constructor <;> linarith


theorem fl_abs_le (q : ℚ) : |fl q - q| ≤ |q| * (1 / 2 ^ 53) := by
  have := fl_sub_le q
  rwa [div_eq_mul_one_div] at this

theorem fl_nonneg_bounds (q : ℚ) (hq : 0 ≤ q) :
    q * (1 - 1 / 2 ^ 53) ≤ fl q ∧ fl q ≤ q * (1 + 1 / 2 ^ 53) :=
  (rounding_interval q (fl q) (1 / 2 ^ 53) (fl_abs_le q)).1 hq

/-- The drawn size on one axis is at least the target size less two roundings. -/
theorem drawn_size_lower (i t s : ℚ) (hi : 0 < i) (ht : 0 < t) (hs : fl (t / i) ≤ s) :
    t * (1 - 1 / 2 ^ 53) ^ 2 ≤ fl (i * s) := by
  have ha := (fl_nonneg_bounds (t / i) (div_nonneg ht.le hi.le)).1
  have h1 : t * (1 - 1 / 2 ^ 53) ≤ i * s := by
    have : i * (t / i * (1 - 1 / 2 ^ 53)) ≤ i * s :=
      mul_le_mul_of_nonneg_left (le_trans ha hs) hi.le
    have e : i * (t / i * (1 - 1 / 2 ^ 53)) = t * (1 - 1 / 2 ^ 53) := by
      field_simp
      ring
    linarith
  have h0 : 0 ≤ i * s := le_trans (mul_nonneg ht.le (by norm_num)) h1
  have hb := (fl_nonneg_bounds (i * s) h0).1
  have : t * (1 - 1 / 2 ^ 53) * (1 - 1 / 2 ^ 53) ≤ i * s * (1 - 1 / 2 ^ 53) :=
    mul_le_mul_of_nonneg_right h1 (by norm_num)
  calc t * (1 - 1 / 2 ^ 53) ^ 2 = t * (1 - 1 / 2 ^ 53) * (1 - 1 / 2 ^ 53) := by ring
    _ ≤ i * s * (1 - 1 / 2 ^ 53) := this
    _ ≤ fl (i * s) := hb

theorem handleBackgroundUpload_axis (i t s : ℚ) (hi : 0 < i) (ht : 0 < t)
    (hs : fl (t / i) ≤ s) :
    fl (fl (t - fl (i * s)) / 2) ≤ t / 2 ^ 52 ∧
    t * (1 - 1 / 2 ^ 52) ≤ fl (fl (t - fl (i * s)) / 2) + fl (i * s) ∧
    |(0 - fl (fl (t - fl (i * s)) / 2)) - (fl (fl (t - fl (i * s)) / 2) + fl (i * s) - t)|
      ≤ |t - fl (i * s)| / 2 ^ 51 := by
  have h := axis_bounds t (fl (i * s)) (fl (t - fl (i * s))) (fl (fl (t - fl (i * s)) / 2))
    (1 / 2 ^ 53) (by norm_num) (by norm_num) ht (drawn_size_lower i t s hi ht hs)
    (fl_abs_le _) (fl_abs_le _)
  refine ⟨?_, ?_, ?_⟩
  · have := h.1; calc _ ≤ t * (2 * (1 / 2 ^ 53)) := this
      _ = t / 2 ^ 52 := by ring
  · have := h.2.1
    calc t * (1 - 1 / 2 ^ 52) = t * (1 - 2 * (1 / 2 ^ 53)) := by ring
      _ ≤ _ := this
  · have := h.2.2
    calc _ ≤ |t - fl (i * s)| * (4 * (1 / 2 ^ 53)) := this
      _ = |t - fl (i * s)| / 2 ^ 51 := by ring


/-- Evaluation of `handleBackgroundUpload` from the value of each rounded operation. -/
theorem handleBackgroundUpload_eval (iw ih tw th : ℕ) (a b s W H dx dy x y : ℚ)
    (ha : fl ((tw : ℚ) / iw) = a) (hb : fl ((th : ℚ) / ih) = b) (hs : max a b = s)
    (hW : fl ((iw : ℚ) * s) = W) (hH : fl ((ih : ℚ) * s) = H)
    (hdx : fl ((tw : ℚ) - W) = dx) (hdy : fl ((th : ℚ) - H) = dy)
    (hx : fl (dx / 2) = x) (hy : fl (dy / 2) = y) :
    Copy3.handleBackgroundUpload iw ih tw th =
      { canvasWidth := tw, canvasHeight := th, scale := s, x := x, y := y,
        drawWidth := W, drawHeight := H } := by
  subst ha hb hs hW hH hdx hdy hx hy
  rfl

/-- The doubles the code computes for a 77×100 image on a 1280×720 target. -/
theorem coverFit_77x100 :
    Copy3.handleBackgroundUpload 77 100 1280 720 =
      { canvasWidth := 1280, canvasHeight := 720, scale := (2339532273958699 / 140737488355328),
        x := (1 / 8796093022208), y := (-2072222434063027 / 4398046511104),
        drawWidth := (5629499534213119 / 4398046511104), drawHeight := (3655519178060467 / 2199023255552) } :=
  handleBackgroundUpload_eval 77 100 1280 720 (2339532273958699 / 140737488355328) (8106479329266893 / 1125899906842624) (2339532273958699 / 140737488355328)
    (5629499534213119 / 4398046511104) (3655519178060467 / 2199023255552) (1 / 4398046511104) (-2072222434063027 / 2199023255552) (1 / 8796093022208) (-2072222434063027 / 4398046511104)
    (by
      have h := fl_eq (1280 / 77) (4) (4679064547917398) (by norm_num [abs_of_pos])
        (by norm_num [abs_of_pos]) (by norm_num [abs_lt])
      rw [show (((1280 : ℕ) : ℚ) / ((77 : ℕ) : ℚ) : ℚ) = (1280 / 77) by norm_num, h]; norm_num)
    (by
      have h := fl_eq (36 / 5) (2) (8106479329266893) (by norm_num [abs_of_pos])
        (by norm_num [abs_of_pos]) (by norm_num [abs_lt])
      rw [show (((720 : ℕ) : ℚ) / ((100 : ℕ) : ℚ) : ℚ) = (36 / 5) by norm_num, h]; norm_num)
    (max_eq_left (by norm_num))
    (by
      have h := fl_eq (180143985094819823 / 140737488355328) (10) (5629499534213119) (by norm_num [abs_of_pos])
        (by norm_num [abs_of_pos]) (by norm_num [abs_lt])
      rw [show (((77 : ℕ) : ℚ) * (2339532273958699 / 140737488355328) : ℚ) = (180143985094819823 / 140737488355328) by norm_num, h]; norm_num)
    (by
      have h := fl_eq (58488306848967475 / 35184372088832) (10) (7311038356120934) (by norm_num [abs_of_pos])
        (by norm_num [abs_of_pos]) (by norm_num [abs_lt])
      rw [show (((100 : ℕ) : ℚ) * (2339532273958699 / 140737488355328) : ℚ) = (58488306848967475 / 35184372088832) by norm_num, h]; norm_num)
    (by
      have h := fl_eq (1 / 4398046511104) (-42) (4503599627370496) (by norm_num [abs_of_pos])
        (by norm_num [abs_of_pos]) (by norm_num [abs_lt])
      rw [show (((1280 : ℕ) : ℚ) - (5629499534213119 / 4398046511104) : ℚ) = (1 / 4398046511104) by norm_num, h]; norm_num)
    (by
      have h := fl_eq (-2072222434063027 / 2199023255552) (9) (-8288889736252108) (by norm_num [abs_of_neg])
        (by norm_num [abs_of_neg]) (by norm_num [abs_lt])
      rw [show (((720 : ℕ) : ℚ) - (3655519178060467 / 2199023255552) : ℚ) = (-2072222434063027 / 2199023255552) by norm_num, h]; norm_num)
    (by
      have h := fl_eq (1 / 8796093022208) (-43) (4503599627370496) (by norm_num [abs_of_pos])
        (by norm_num [abs_of_pos]) (by norm_num [abs_lt])
      rw [show ((1 / 4398046511104) / 2 : ℚ) = (1 / 8796093022208) by norm_num, h]; norm_num)
    (by
      have h := fl_eq (-2072222434063027 / 4398046511104) (8) (-8288889736252108) (by norm_num [abs_of_neg])
        (by norm_num [abs_of_neg]) (by norm_num [abs_lt])
      rw [show ((-2072222434063027 / 2199023255552) / 2 : ℚ) = (-2072222434063027 / 4398046511104) by norm_num, h]; norm_num)

/-- The doubles the code computes for a 100×100 image on a 1280×720 target. -/
theorem coverFit_100x100 :
    Copy3.handleBackgroundUpload 100 100 1280 720 =
      { canvasWidth := 1280, canvasHeight := 720, scale := (3602879701896397 / 281474976710656),
        x := 0, y := (-280),
        drawWidth := 1280, drawHeight := 1280 } :=
  handleBackgroundUpload_eval 100 100 1280 720 (3602879701896397 / 281474976710656) (8106479329266893 / 1125899906842624) (3602879701896397 / 281474976710656)
    1280 1280 0 (-560) 0 (-280)
    (by
      have h := fl_eq (64 / 5) (3) (7205759403792794) (by norm_num [abs_of_pos])
        (by norm_num [abs_of_pos]) (by norm_num [abs_lt])
      rw [show (((1280 : ℕ) : ℚ) / ((100 : ℕ) : ℚ) : ℚ) = (64 / 5) by norm_num, h]; norm_num)
    (by
      have h := fl_eq (36 / 5) (2) (8106479329266893) (by norm_num [abs_of_pos])
        (by norm_num [abs_of_pos]) (by norm_num [abs_lt])
      rw [show (((720 : ℕ) : ℚ) / ((100 : ℕ) : ℚ) : ℚ) = (36 / 5) by norm_num, h]; norm_num)
    (max_eq_left (by norm_num))
    (by
      have h := fl_eq (90071992547409925 / 70368744177664) (10) (5629499534213120) (by norm_num [abs_of_pos])
        (by norm_num [abs_of_pos]) (by norm_num [abs_lt])
      rw [show (((100 : ℕ) : ℚ) * (3602879701896397 / 281474976710656) : ℚ) = (90071992547409925 / 70368744177664) by norm_num, h]; norm_num)
    (by
      have h := fl_eq (90071992547409925 / 70368744177664) (10) (5629499534213120) (by norm_num [abs_of_pos])
        (by norm_num [abs_of_pos]) (by norm_num [abs_lt])
      rw [show (((100 : ℕ) : ℚ) * (3602879701896397 / 281474976710656) : ℚ) = (90071992547409925 / 70368744177664) by norm_num, h]; norm_num)
    (by rw [show (((1280 : ℕ) : ℚ) - 1280 : ℚ) = 0 by norm_num]; exact fl_zero)
    (by
      have h := fl_eq (-560) (9) (-4925812092436480) (by norm_num [abs_of_neg])
        (by norm_num [abs_of_neg]) (by norm_num [abs_lt])
      rw [show (((720 : ℕ) : ℚ) - 1280 : ℚ) = (-560) by norm_num, h]; norm_num)
    (by rw [show (0 / 2 : ℚ) = 0 by norm_num]; exact fl_zero)
    (by
      have h := fl_eq (-280) (8) (-4925812092436480) (by norm_num [abs_of_neg])
        (by norm_num [abs_of_neg]) (by norm_num [abs_lt])
      rw [show ((-560) / 2 : ℚ) = (-280) by norm_num, h]; norm_num)

/-- The doubles the code computes for a 100×200 image on a 1280×720 target. -/
theorem coverFit_100x200 :
    Copy3.handleBackgroundUpload 100 200 1280 720 =
      { canvasWidth := 1280, canvasHeight := 720, scale := (3602879701896397 / 281474976710656),
        x := 0, y := (-920),
        drawWidth := 1280, drawHeight := 2560 } :=
  handleBackgroundUpload_eval 100 200 1280 720 (3602879701896397 / 281474976710656) (8106479329266893 / 2251799813685248) (3602879701896397 / 281474976710656)
    1280 2560 0 (-1840) 0 (-920)
    (by
      have h := fl_eq (64 / 5) (3) (7205759403792794) (by norm_num [abs_of_pos])
        (by norm_num [abs_of_pos]) (by norm_num [abs_lt])
      rw [show (((1280 : ℕ) : ℚ) / ((100 : ℕ) : ℚ) : ℚ) = (64 / 5) by norm_num, h]; norm_num)
    (by
      have h := fl_eq (18 / 5) (1) (8106479329266893) (by norm_num [abs_of_pos])
        (by norm_num [abs_of_pos]) (by norm_num [abs_lt])
      rw [show (((720 : ℕ) : ℚ) / ((200 : ℕ) : ℚ) : ℚ) = (18 / 5) by norm_num, h]; norm_num)
    (max_eq_left (by norm_num))
    (by
      have h := fl_eq (90071992547409925 / 70368744177664) (10) (5629499534213120) (by norm_num [abs_of_pos])
        (by norm_num [abs_of_pos]) (by norm_num [abs_lt])
      rw [show (((100 : ℕ) : ℚ) * (3602879701896397 / 281474976710656) : ℚ) = (90071992547409925 / 70368744177664) by norm_num, h]; norm_num)
    (by
      have h := fl_eq (90071992547409925 / 35184372088832) (11) (5629499534213120) (by norm_num [abs_of_pos])
        (by norm_num [abs_of_pos]) (by norm_num [abs_lt])
      rw [show (((200 : ℕ) : ℚ) * (3602879701896397 / 281474976710656) : ℚ) = (90071992547409925 / 35184372088832) by norm_num, h]; norm_num)
    (by rw [show (((1280 : ℕ) : ℚ) - 1280 : ℚ) = 0 by norm_num]; exact fl_zero)
    (by
      have h := fl_eq (-1840) (10) (-8092405580431360) (by norm_num [abs_of_neg])
        (by norm_num [abs_of_neg]) (by norm_num [abs_lt])
      rw [show (((720 : ℕ) : ℚ) - 2560 : ℚ) = (-1840) by norm_num, h]; norm_num)
    (by rw [show (0 / 2 : ℚ) = 0 by norm_num]; exact fl_zero)
    (by
      have h := fl_eq (-920) (9) (-8092405580431360) (by norm_num [abs_of_neg])
        (by norm_num [abs_of_neg]) (by norm_num [abs_lt])
      rw [show ((-1840) / 2 : ℚ) = (-920) by norm_num, h]; norm_num)

/-- The doubles the code computes for a 147×100 image on a 1280×720 target. -/
theorem coverFit_147x100 :
    Copy3.handleBackgroundUpload 147 100 1280 720 =
      { canvasWidth := 1280, canvasHeight := 720, scale := (4901877145437275 / 562949953421312),
        x := (-1 / 8796093022208), y := (-662998031877991 / 8796093022208),
        drawWidth := (5629499534213121 / 4398046511104), drawHeight := (3829591519872871 / 4398046511104) } :=
  handleBackgroundUpload_eval 147 100 1280 720 (4901877145437275 / 562949953421312) (8106479329266893 / 1125899906842624) (4901877145437275 / 562949953421312)
    (5629499534213121 / 4398046511104) (3829591519872871 / 4398046511104) (-1 / 4398046511104) (-662998031877991 / 4398046511104) (-1 / 8796093022208) (-662998031877991 / 8796093022208)
    (by
      have h := fl_eq (1280 / 147) (3) (4901877145437275) (by norm_num [abs_of_pos])
        (by norm_num [abs_of_pos]) (by norm_num [abs_lt])
      rw [show (((1280 : ℕ) : ℚ) / ((147 : ℕ) : ℚ) : ℚ) = (1280 / 147) by norm_num, h]; norm_num)
    (by
      have h := fl_eq (36 / 5) (2) (8106479329266893) (by norm_num [abs_of_pos])
        (by norm_num [abs_of_pos]) (by norm_num [abs_lt])
      rw [show (((720 : ℕ) : ℚ) / ((100 : ℕ) : ℚ) : ℚ) = (36 / 5) by norm_num, h]; norm_num)
    (max_eq_left (by norm_num))
    (by
      have h := fl_eq (720575940379279425 / 562949953421312) (10) (5629499534213121) (by norm_num [abs_of_pos])
        (by norm_num [abs_of_pos]) (by norm_num [abs_lt])
      rw [show (((147 : ℕ) : ℚ) * (4901877145437275 / 562949953421312) : ℚ) = (720575940379279425 / 562949953421312) by norm_num, h]; norm_num)
    (by
      have h := fl_eq (122546928635931875 / 140737488355328) (9) (7659183039745742) (by norm_num [abs_of_pos])
        (by norm_num [abs_of_pos]) (by norm_num [abs_lt])
      rw [show (((100 : ℕ) : ℚ) * (4901877145437275 / 562949953421312) : ℚ) = (122546928635931875 / 140737488355328) by norm_num, h]; norm_num)
    (by
      have h := fl_eq (-1 / 4398046511104) (-42) (-4503599627370496) (by norm_num [abs_of_neg])
        (by norm_num [abs_of_neg]) (by norm_num [abs_lt])
      rw [show (((1280 : ℕ) : ℚ) - (5629499534213121 / 4398046511104) : ℚ) = (-1 / 4398046511104) by norm_num, h]; norm_num)
    (by
      have h := fl_eq (-662998031877991 / 4398046511104) (7) (-5303984255023928) (by norm_num [abs_of_neg])
        (by norm_num [abs_of_neg]) (by norm_num [abs_lt])
      rw [show (((720 : ℕ) : ℚ) - (3829591519872871 / 4398046511104) : ℚ) = (-662998031877991 / 4398046511104) by norm_num, h]; norm_num)
    (by
      have h := fl_eq (-1 / 8796093022208) (-43) (-4503599627370496) (by norm_num [abs_of_neg])
        (by norm_num [abs_of_neg]) (by norm_num [abs_lt])
      rw [show ((-1 / 4398046511104) / 2 : ℚ) = (-1 / 8796093022208) by norm_num, h]; norm_num)
    (by
      have h := fl_eq (-662998031877991 / 8796093022208) (6) (-5303984255023928) (by norm_num [abs_of_neg])
        (by norm_num [abs_of_neg]) (by norm_num [abs_lt])
      rw [show ((-662998031877991 / 4398046511104) / 2 : ℚ) = (-662998031877991 / 8796093022208) by norm_num, h]; norm_num)

/-- The rounded half-difference is not below minus two roundings of the target size when
the drawn size exceeds the target by at most two roundings. -/
theorem axis_lower (t W d x u : ℚ) (hu0 : 0 ≤ u) (hu1 : u ≤ 1 / 4) (ht : 0 < t)
    (hW : W ≤ t * (1 + u) ^ 2)
    (hd : |d - (t - W)| ≤ |t - W| * u) (hx : |x - d / 2| ≤ |d / 2| * u) :
    -(t * (2 * u)) ≤ x := by
  have hd' := rounding_interval (t - W) d u hd
  have hx' := rounding_interval (d / 2) x u hx
  have htu : 0 ≤ t * u := mul_nonneg ht.le hu0
  rcases le_total 0 (t - W) with hD | hD
  · obtain ⟨hd1, -⟩ := hd'.1 hD
    have hd0 : 0 ≤ d := le_trans (mul_nonneg hD (by linarith)) hd1
    obtain ⟨hx1, -⟩ := hx'.1 (by linarith)
    have hx0 : 0 ≤ x := le_trans (mul_nonneg (by linarith) (by linarith)) hx1
    linarith
  · obtain ⟨hd1, hd2⟩ := hd'.2 hD
    have hd0 : d ≤ 0 := le_trans hd2 (mul_nonpos_of_nonpos_of_nonneg hD (by linarith))
    obtain ⟨hx1, -⟩ := hx'.2 (by linarith)
    have hx3 : (t - W) * (1 + u) * (1 + u) ≤ 2 * x := by
      have := mul_le_mul_of_nonneg_right hd1 (by linarith : (0 : ℚ) ≤ 1 + u)
      linarith
    have hc : (1 + u) * (1 + u) ≤ 25 / 16 := by nlinarith
    have hx5 : (t - W) * (25 / 16) ≤ (t - W) * ((1 + u) * (1 + u)) :=
      mul_le_mul_of_nonpos_left hc hD
    have htuu : t * u * u ≤ t * u * (1 / 4) := mul_le_mul_of_nonneg_left hu1 htu
    have hD2 : -(t * (2 * u + u * u)) ≤ t - W := by
      have : t * (1 + u) ^ 2 = t + t * (2 * u + u * u) := by ring
      linarith
    have e : t * (2 * u + u * u) = 2 * (t * u) + t * u * u := by ring
    linarith

/-- A product with a rounded quotient, rounded again, from below. -/
theorem scaled_lower (c q s : ℚ) (hc : 0 ≤ c) (hq : 0 ≤ q) (hs : fl q ≤ s) :
    c * q * (1 - 1 / 2 ^ 53) ^ 2 ≤ fl (c * s) := by
  have ha := (fl_nonneg_bounds q hq).1
  have h1 : c * (q * (1 - 1 / 2 ^ 53)) ≤ c * s :=
    mul_le_mul_of_nonneg_left (le_trans ha hs) hc
  have h0 : 0 ≤ c * s :=
    le_trans (mul_nonneg hc (mul_nonneg hq (by norm_num))) h1
  have hb := (fl_nonneg_bounds (c * s) h0).1
  have : c * (q * (1 - 1 / 2 ^ 53)) * (1 - 1 / 2 ^ 53) ≤ c * s * (1 - 1 / 2 ^ 53) :=
    mul_le_mul_of_nonneg_right h1 (by norm_num)
  calc c * q * (1 - 1 / 2 ^ 53) ^ 2 = c * (q * (1 - 1 / 2 ^ 53)) * (1 - 1 / 2 ^ 53) := by ring
    _ ≤ c * s * (1 - 1 / 2 ^ 53) := this
    _ ≤ fl (c * s) := hb

/-- A product with a rounded quotient, rounded again, from above. -/
theorem scaled_upper (c q s : ℚ) (hc : 0 ≤ c) (hs0 : 0 ≤ s)
    (hs : s ≤ q * (1 + 1 / 2 ^ 53)) :
    fl (c * s) ≤ c * q * (1 + 1 / 2 ^ 53) ^ 2 := by
  have hb := (fl_nonneg_bounds (c * s) (mul_nonneg hc hs0)).2
  have h1 : c * s ≤ c * (q * (1 + 1 / 2 ^ 53)) := mul_le_mul_of_nonneg_left hs hc
  have : c * s * (1 + 1 / 2 ^ 53) ≤ c * (q * (1 + 1 / 2 ^ 53)) * (1 + 1 / 2 ^ 53) :=
    mul_le_mul_of_nonneg_right h1 (by norm_num)
  calc fl (c * s) ≤ c * s * (1 + 1 / 2 ^ 53) := hb
    _ ≤ c * (q * (1 + 1 / 2 ^ 53)) * (1 + 1 / 2 ^ 53) := this
    _ = c * q * (1 + 1 / 2 ^ 53) ^ 2 := by ring

/-- A negative number rounds to a negative number. -/
theorem fl_neg_of_neg (q : ℚ) (hq : q < 0) : fl q < 0 := by
  have h := ((rounding_interval q (fl q) (1 / 2 ^ 53) (fl_abs_le q)).2 hq.le).2
  have : q * (1 - 1 / 2 ^ 53) < 0 := mul_neg_of_neg_of_pos hq (by norm_num)
  linarith

theorem fl_64_5 : fl (64 / 5) = 3602879701896397 / 281474976710656 := by
  rw [fl_eq (64 / 5) 3 7205759403792794 (by norm_num [abs_of_pos])
    (by norm_num [abs_of_pos]) (by norm_num [abs_lt])]
  norm_num

/-- C2 as stated fails in the arithmetic of the code: for a 77×100 image on a 1280×720
target the doubles give `x = 2⁻⁴³ > 0` and a drawn width of `1280 - 2⁻⁴²`, so the drawn
rectangle starts right of the target's left edge and ends left of its right edge; and for
the 100×100 image the scale is the double nearest to 12.8, not 12.8. -/
theorem cover_fit_rounding_gap :
    (Copy3.handleBackgroundUpload 77 100 1280 720).x = 1 / 2 ^ 43 ∧
    ¬ ((Copy3.handleBackgroundUpload 77 100 1280 720).x ≤ 0) ∧
    (Copy3.handleBackgroundUpload 77 100 1280 720).drawWidth = 1280 - 1 / 2 ^ 42 ∧
    ¬ ((1280 : ℚ) ≤ (Copy3.handleBackgroundUpload 77 100 1280 720).x +
        (Copy3.handleBackgroundUpload 77 100 1280 720).drawWidth) ∧
    (Copy3.handleBackgroundUpload 100 100 1280 720).scale ≠ 64 / 5 := by
  rw [coverFit_77x100, coverFit_100x100]
  norm_num

/-- C2, amended. Cover-fit coverage in the doubles the code computes (`fl` rounds to the
nearest double): for positive image and target dimensions, `scale = max(fl(tw/iw),
fl(th/ih))`, the drawn size is `fl(iw·scale) × fl(ih·scale)` and the offsets are
`x = fl(fl(tw - fl(iw·scale))/2)`, `y` likewise. The drawn rectangle contains the target
up to rounding: `x ≤ tw·2⁻⁵²`, `y ≤ th·2⁻⁵²`, and its far edges reach `tw·(1 - 2⁻⁵²)` and
`th·(1 - 2⁻⁵²)`. The overflows on opposite sides differ by at most `2⁻⁵¹` of the difference
between target and drawn size. The buffer drawn into is exactly `tw × th`. A 100×100 image
on a 1280×720 target gets the double nearest to 12.8 as scale and the offset (0, -280). -/
theorem handleBackgroundUpload_covers_up_to_rounding (iw ih tw th : ℕ)
    (hiw : 0 < iw) (hih : 0 < ih) (htw : 0 < tw) (hth : 0 < th) :
    (Copy3.handleBackgroundUpload iw ih tw th).scale =
      max (fl ((tw : ℚ) / iw)) (fl ((th : ℚ) / ih)) ∧
    (Copy3.handleBackgroundUpload iw ih tw th).drawWidth =
      fl (iw * (Copy3.handleBackgroundUpload iw ih tw th).scale) ∧
    (Copy3.handleBackgroundUpload iw ih tw th).drawHeight =
      fl (ih * (Copy3.handleBackgroundUpload iw ih tw th).scale) ∧
    (Copy3.handleBackgroundUpload iw ih tw th).x =
      fl (fl ((tw : ℚ) - (Copy3.handleBackgroundUpload iw ih tw th).drawWidth) / 2) ∧
    (Copy3.handleBackgroundUpload iw ih tw th).y =
      fl (fl ((th : ℚ) - (Copy3.handleBackgroundUpload iw ih tw th).drawHeight) / 2) ∧
    (Copy3.handleBackgroundUpload iw ih tw th).x ≤ (tw : ℚ) / 2 ^ 52 ∧
    (Copy3.handleBackgroundUpload iw ih tw th).y ≤ (th : ℚ) / 2 ^ 52 ∧
    (tw : ℚ) * (1 - 1 / 2 ^ 52) ≤ (Copy3.handleBackgroundUpload iw ih tw th).x +
      (Copy3.handleBackgroundUpload iw ih tw th).drawWidth ∧
    (th : ℚ) * (1 - 1 / 2 ^ 52) ≤ (Copy3.handleBackgroundUpload iw ih tw th).y +
      (Copy3.handleBackgroundUpload iw ih tw th).drawHeight ∧
    |(0 - (Copy3.handleBackgroundUpload iw ih tw th).x) -
        ((Copy3.handleBackgroundUpload iw ih tw th).x +
          (Copy3.handleBackgroundUpload iw ih tw th).drawWidth - tw)| ≤
      |(tw : ℚ) - (Copy3.handleBackgroundUpload iw ih tw th).drawWidth| / 2 ^ 51 ∧
    |(0 - (Copy3.handleBackgroundUpload iw ih tw th).y) -
        ((Copy3.handleBackgroundUpload iw ih tw th).y +
          (Copy3.handleBackgroundUpload iw ih tw th).drawHeight - th)| ≤
      |(th : ℚ) - (Copy3.handleBackgroundUpload iw ih tw th).drawHeight| / 2 ^ 51 ∧
    (Copy3.handleBackgroundUpload iw ih tw th).canvasWidth = tw ∧
    (Copy3.handleBackgroundUpload iw ih tw th).canvasHeight = th ∧
    (Copy3.handleBackgroundUpload 100 100 1280 720).scale = fl (64 / 5) ∧
    (Copy3.handleBackgroundUpload 100 100 1280 720).scale =
      3602879701896397 / 281474976710656 ∧
    (Copy3.handleBackgroundUpload 100 100 1280 720).x = 0 ∧
    (Copy3.handleBackgroundUpload 100 100 1280 720).y = -280 ∧
    (Copy3.handleBackgroundUpload 100 100 1280 720).canvasWidth = 1280 ∧
    (Copy3.handleBackgroundUpload 100 100 1280 720).canvasHeight = 720 := by
  have hiw' : (0 : ℚ) < iw := by exact_mod_cast hiw
  have hih' : (0 : ℚ) < ih := by exact_mod_cast hih
  have htw' : (0 : ℚ) < tw := by exact_mod_cast htw
  have hth' : (0 : ℚ) < th := by exact_mod_cast hth
  have hX := handleBackgroundUpload_axis (iw : ℚ) (tw : ℚ)
    (max (fl ((tw : ℚ) / iw)) (fl ((th : ℚ) / ih))) hiw' htw' (le_max_left _ _)
  have hY := handleBackgroundUpload_axis (ih : ℚ) (th : ℚ)
    (max (fl ((tw : ℚ) / iw)) (fl ((th : ℚ) / ih))) hih' hth' (le_max_right _ _)
  refine ⟨rfl, rfl, rfl, rfl, rfl, hX.1, hY.1, hX.2.1, hY.2.1, hX.2.2, hY.2.2, rfl, rfl,
    ?_, ?_, ?_, ?_, rfl, rfl⟩
  · rw [coverFit_100x100, fl_64_5]
  · rw [coverFit_100x100]
  · rw [coverFit_100x100]
  · rw [coverFit_100x100]

/-- C2, amended, for a 100×200 image on a 1280×720 target: the vertical axis, on which
the image overflows. -/
theorem handleBackgroundUpload_covers_up_to_rounding_witness :
    (Copy3.handleBackgroundUpload 100 200 1280 720).drawHeight =
      fl (((200 : ℕ) : ℚ) * (Copy3.handleBackgroundUpload 100 200 1280 720).scale) ∧
    (Copy3.handleBackgroundUpload 100 200 1280 720).y ≤ ((720 : ℕ) : ℚ) / 2 ^ 52 ∧
    (((720 : ℕ) : ℚ)) * (1 - 1 / 2 ^ 52) ≤
      (Copy3.handleBackgroundUpload 100 200 1280 720).y +
        (Copy3.handleBackgroundUpload 100 200 1280 720).drawHeight :=
  ⟨(handleBackgroundUpload_covers_up_to_rounding 100 200 1280 720 (by decide) (by decide)
      (by decide) (by decide)).2.2.1,
   (handleBackgroundUpload_covers_up_to_rounding 100 200 1280 720 (by decide) (by decide)
      (by decide) (by decide)).2.2.2.2.2.2.1,
   (handleBackgroundUpload_covers_up_to_rounding 100 200 1280 720 (by decide) (by decide)
      (by decide) (by decide)).2.2.2.2.2.2.2.2.1⟩

/-- C3 as stated fails: a 100×200 image is narrower than the 1280×720 target, yet the code
does not crop it horizontally (its drawn width is exactly 1280 and `x = 0`) and does not
fit it vertically (its drawn height is 2560 and `y = -920`). Nor is the fit on the other
axis exact in general: for the narrower 147×100 image the doubles give a drawn width of
`1280 + 2⁻⁴²` and `x = -2⁻⁴³`. -/
theorem narrower_image_not_cropped_horizontally :
    ((100 : ℚ) / 200 < (1280 : ℚ) / 720) ∧
    ¬ ((1280 : ℚ) < (Copy3.handleBackgroundUpload 100 200 1280 720).drawWidth ∧
        (Copy3.handleBackgroundUpload 100 200 1280 720).x < 0 ∧
        (Copy3.handleBackgroundUpload 100 200 1280 720).drawHeight = 720 ∧
        (Copy3.handleBackgroundUpload 100 200 1280 720).y = 0) ∧
    (Copy3.handleBackgroundUpload 100 200 1280 720).drawWidth = 1280 ∧
    (Copy3.handleBackgroundUpload 100 200 1280 720).x = 0 ∧
    (Copy3.handleBackgroundUpload 100 200 1280 720).drawHeight = 2560 ∧
    (Copy3.handleBackgroundUpload 100 200 1280 720).y = -920 ∧
    ((147 : ℚ) / 100 < (1280 : ℚ) / 720) ∧
    (Copy3.handleBackgroundUpload 147 100 1280 720).drawWidth = 1280 + 1 / 2 ^ 42 ∧
    (Copy3.handleBackgroundUpload 147 100 1280 720).x = -(1 / 2 ^ 43) := by
  rw [coverFit_100x200, coverFit_147x100]
  norm_num

/-- C3, amended. Cover-fit law in the doubles the code computes: a background image
narrower than the target (`iw/ih < tw/th`, all dimensions positive, `iw` and `th` below
`2 ^ 24`) is cropped vertically (its drawn height exceeds `th` and `y < 0`) and filled
horizontally edge to edge up to rounding: the drawn width differs from `tw` by at most
`tw · 2⁻⁵¹` and `|x| ≤ tw · 2⁻⁵²`. Scale, drawn size and offsets are the ones the code
computes: `scale = max(fl(tw/iw), fl(th/ih))`, `fl(iw·scale) × fl(ih·scale)`,
`x = fl(fl(tw - fl(iw·scale))/2)` and `y` likewise. -/
theorem narrower_image_cropped_vertically (iw ih tw th : ℕ)
    (hiw : 0 < iw) (hih : 0 < ih) (htw : 0 < tw) (hth : 0 < th)
    (hbi : iw < 2 ^ 24) (hbt : th < 2 ^ 24)
    (hnarrow : (iw : ℚ) / ih < (tw : ℚ) / th) :
    (Copy3.handleBackgroundUpload iw ih tw th).scale =
      max (fl ((tw : ℚ) / iw)) (fl ((th : ℚ) / ih)) ∧
    (Copy3.handleBackgroundUpload iw ih tw th).drawWidth =
      fl (iw * (Copy3.handleBackgroundUpload iw ih tw th).scale) ∧
    (Copy3.handleBackgroundUpload iw ih tw th).drawHeight =
      fl (ih * (Copy3.handleBackgroundUpload iw ih tw th).scale) ∧
    (Copy3.handleBackgroundUpload iw ih tw th).x =
      fl (fl ((tw : ℚ) - (Copy3.handleBackgroundUpload iw ih tw th).drawWidth) / 2) ∧
    (Copy3.handleBackgroundUpload iw ih tw th).y =
      fl (fl ((th : ℚ) - (Copy3.handleBackgroundUpload iw ih tw th).drawHeight) / 2) ∧
    (th : ℚ) < (Copy3.handleBackgroundUpload iw ih tw th).drawHeight ∧
    (Copy3.handleBackgroundUpload iw ih tw th).y < 0 ∧
    |(Copy3.handleBackgroundUpload iw ih tw th).drawWidth - tw| ≤ (tw : ℚ) / 2 ^ 51 ∧
    |(Copy3.handleBackgroundUpload iw ih tw th).x| ≤ (tw : ℚ) / 2 ^ 52 := by
  have hiw' : (0 : ℚ) < iw := by exact_mod_cast hiw
  have hih' : (0 : ℚ) < ih := by exact_mod_cast hih
  have htw' : (0 : ℚ) < tw := by exact_mod_cast htw
  have hth' : (0 : ℚ) < th := by exact_mod_cast hth
  have hcrossQ : (iw : ℚ) * th < tw * ih := by
    rwa [div_lt_div_iff₀ hih' hth'] at hnarrow
  have hcrossN : iw * th < tw * ih := by exact_mod_cast hcrossQ
  have hcross1 : (iw : ℚ) * th + 1 ≤ tw * ih := by exact_mod_cast hcrossN
  have hlt : (th : ℚ) / ih < (tw : ℚ) / iw := by
    rw [div_lt_div_iff₀ hih' hiw']; linarith
  have ha0 : (0 : ℚ) ≤ (tw : ℚ) / iw := (div_pos htw' hiw').le
  have hb0 : (0 : ℚ) ≤ (th : ℚ) / ih := (div_pos hth' hih').le
  -- the scale
  set s : ℚ := max (fl ((tw : ℚ) / iw)) (fl ((th : ℚ) / ih)) with hs
  have hs1 : fl ((tw : ℚ) / iw) ≤ s := le_max_left _ _
  have hs2 : s ≤ (tw : ℚ) / iw * (1 + 1 / 2 ^ 53) := by
    apply max_le (fl_nonneg_bounds _ ha0).2
    calc fl ((th : ℚ) / ih) ≤ (th : ℚ) / ih * (1 + 1 / 2 ^ 53) := (fl_nonneg_bounds _ hb0).2
      _ ≤ (tw : ℚ) / iw * (1 + 1 / 2 ^ 53) :=
          mul_le_mul_of_nonneg_right hlt.le (by norm_num)
  have hs0 : 0 ≤ s :=
    le_trans (le_trans (mul_nonneg ha0 (by norm_num)) (fl_nonneg_bounds _ ha0).1) hs1
  -- the height
  have hH := scaled_lower (ih : ℚ) ((tw : ℚ) / iw) s hih'.le ha0 hs1
  have hq : (th : ℚ) + 1 / iw ≤ (ih : ℚ) * ((tw : ℚ) / iw) := by
    rw [show (ih : ℚ) * ((tw : ℚ) / iw) = (tw * ih) / iw by ring,
      le_div_iff₀ hiw']
    have : ((th : ℚ) + 1 / iw) * iw = iw * th + 1 := by field_simp; ring
    linarith
  have hbiQ : (iw : ℚ) ≤ 2 ^ 24 := by exact_mod_cast hbi.le
  have hbtQ : (th : ℚ) ≤ 2 ^ 24 := by exact_mod_cast hbt.le
  have hinv : (1 : ℚ) / 2 ^ 24 ≤ 1 / iw := one_div_le_one_div_of_le hiw' hbiQ
  have hgap : (th : ℚ) < ((th : ℚ) + 1 / iw) * (1 - 1 / 2 ^ 53) ^ 2 := by
    have e : ((th : ℚ) + 1 / iw) * (1 - 1 / 2 ^ 53) ^ 2 =
        th + 1 / iw - ((th : ℚ) + 1 / iw) * (2 / 2 ^ 53 - 1 / 2 ^ 106) := by ring
    have h1 : ((th : ℚ) + 1 / iw) * (2 / 2 ^ 53 - 1 / 2 ^ 106) ≤
        (2 ^ 24 + 1) * (2 / 2 ^ 53 - 1 / 2 ^ 106) := by
      apply mul_le_mul_of_nonneg_right _ (by norm_num)
      have : (1 : ℚ) / iw ≤ 1 := by
        rw [div_le_one hiw']; exact_mod_cast hiw
      linarith
    have h2 : ((2 : ℚ) ^ 24 + 1) * (2 / 2 ^ 53 - 1 / 2 ^ 106) < 1 / 2 ^ 24 := by norm_num
    linarith
  have hHgt : (th : ℚ) < fl ((ih : ℚ) * s) := by
    calc (th : ℚ) < ((th : ℚ) + 1 / iw) * (1 - 1 / 2 ^ 53) ^ 2 := hgap
      _ ≤ (ih : ℚ) * ((tw : ℚ) / iw) * (1 - 1 / 2 ^ 53) ^ 2 :=
          mul_le_mul_of_nonneg_right hq (by positivity)
      _ ≤ fl ((ih : ℚ) * s) := hH
  -- the width
  have hWlo := scaled_lower (iw : ℚ) ((tw : ℚ) / iw) s hiw'.le ha0 hs1
  have hWhi := scaled_upper (iw : ℚ) ((tw : ℚ) / iw) s hiw'.le hs0 hs2
  have e : (iw : ℚ) * ((tw : ℚ) / iw) = tw := by field_simp
  rw [e] at hWlo hWhi
  have hax := axis_bounds (tw : ℚ) (fl ((iw : ℚ) * s)) (fl ((tw : ℚ) - fl ((iw : ℚ) * s)))
    (fl (fl ((tw : ℚ) - fl ((iw : ℚ) * s)) / 2)) (1 / 2 ^ 53) (by norm_num) (by norm_num)
    htw' hWlo (fl_abs_le _) (fl_abs_le _)
  have hlow := axis_lower (tw : ℚ) (fl ((iw : ℚ) * s)) (fl ((tw : ℚ) - fl ((iw : ℚ) * s)))
    (fl (fl ((tw : ℚ) - fl ((iw : ℚ) * s)) / 2)) (1 / 2 ^ 53) (by norm_num) (by norm_num)
    htw' hWhi (fl_abs_le _) (fl_abs_le _)
  refine ⟨rfl, rfl, rfl, rfl, rfl, hHgt, ?_, ?_, ?_⟩
  · show fl (fl ((th : ℚ) - fl ((ih : ℚ) * s)) / 2) < 0
    apply fl_neg_of_neg
    have := fl_neg_of_neg ((th : ℚ) - fl ((ih : ℚ) * s)) (by linarith)
    linarith
  · show |fl ((iw : ℚ) * s) - tw| ≤ (tw : ℚ) / 2 ^ 51
    rw [abs_le]
    constructor
    · have : (tw : ℚ) * (1 - 1 / 2 ^ 53) ^ 2 = tw - tw * (2 / 2 ^ 53 - 1 / 2 ^ 106) := by ring
      have h3 : (tw : ℚ) * (2 / 2 ^ 53 - 1 / 2 ^ 106) ≤ tw / 2 ^ 51 := by
        calc (tw : ℚ) * (2 / 2 ^ 53 - 1 / 2 ^ 106) ≤ tw * (1 / 2 ^ 51) :=
              mul_le_mul_of_nonneg_left
                (show (2 : ℚ) / 2 ^ 53 - 1 / 2 ^ 106 ≤ 1 / 2 ^ 51 by norm_num) htw'.le
          _ = tw / 2 ^ 51 := by ring
      linarith
    · have : (tw : ℚ) * (1 + 1 / 2 ^ 53) ^ 2 = tw + tw * (2 / 2 ^ 53 + 1 / 2 ^ 106) := by ring
      have h3 : (tw : ℚ) * (2 / 2 ^ 53 + 1 / 2 ^ 106) ≤ tw / 2 ^ 51 := by
        calc (tw : ℚ) * (2 / 2 ^ 53 + 1 / 2 ^ 106) ≤ tw * (1 / 2 ^ 51) :=
              mul_le_mul_of_nonneg_left
                (show (2 : ℚ) / 2 ^ 53 + 1 / 2 ^ 106 ≤ 1 / 2 ^ 51 by norm_num) htw'.le
          _ = tw / 2 ^ 51 := by ring
      linarith
  · show |fl (fl ((tw : ℚ) - fl ((iw : ℚ) * s)) / 2)| ≤ (tw : ℚ) / 2 ^ 52
    rw [abs_le]
    constructor
    · calc -((tw : ℚ) / 2 ^ 52) = -((tw : ℚ) * (2 * (1 / 2 ^ 53))) := by ring
        _ ≤ _ := hlow
    · calc _ ≤ (tw : ℚ) * (2 * (1 / 2 ^ 53)) := hax.1
        _ = (tw : ℚ) / 2 ^ 52 := by ring

/-- C3, amended, for a 100×200 image on a 1280×720 target. -/
theorem narrower_image_cropped_vertically_witness :
    (((720 : ℕ) : ℚ)) < (Copy3.handleBackgroundUpload 100 200 1280 720).drawHeight ∧
    (Copy3.handleBackgroundUpload 100 200 1280 720).y < 0 ∧
    |(Copy3.handleBackgroundUpload 100 200 1280 720).drawWidth - ((1280 : ℕ) : ℚ)| ≤
      ((1280 : ℕ) : ℚ) / 2 ^ 51 ∧
    |(Copy3.handleBackgroundUpload 100 200 1280 720).x| ≤ ((1280 : ℕ) : ℚ) / 2 ^ 52 :=
  (narrower_image_cropped_vertically 100 200 1280 720 (by decide) (by decide) (by decide)
    (by decide) (by decide) (by decide) (by norm_num)).2.2.2.2.2

/-! ## Session lifecycle -/

theorem allTracksStopped_cleanup (c : Component) :
    Component.allTracksStopped (Component.cleanup c) = true := by
  cases h : c.srcObject <;> simp [Component.allTracksStopped, Component.cleanup, h]

theorem cleanup_idem (c : Component) :
    Component.cleanup (Component.cleanup c) = Component.cleanup c := by
  cases h : c.srcObject <;> simp [Component.cleanup, h]

/-- One click on the webcam button: no exception, `isVideoReady` and `error` are reset,
every track is stopped by the cleanup, and `isWebcamActive` is flipped. -/
theorem step_toggle (v : Variant) (c : Component) (hr : c.raised = none) :
    (Component.step v c .toggle).raised = none ∧
    (Component.step v c .toggle).isVideoReady = false ∧
    (Component.step v c .toggle).error = none ∧
    Component.allTracksStopped (Component.step v c .toggle) = true ∧
    (Component.step v c .toggle).isWebcamActive = !c.isWebcamActive := by
  have hs := allTracksStopped_cleanup c
  cases ha : c.isWebcamActive <;> cases hv : c.isVideoReady <;>
    simp_all [Component.step, Component.enabled, Component.handle, Component.commit,
      Component.deps, Component.handleWebcamToggle, Component.webcamEffect,
      Component.startWebcam, Component.cleanup, Component.allTracksStopped]

theorem toggles_succ (v : Variant) (n : ℕ) (c : Component) :
    Component.toggles v (n + 1) c = Component.toggles v n (Component.step v c .toggle) := by
  simp [Component.toggles, Component.run, List.replicate_succ]

theorem toggles_aux (v : Variant) (n : ℕ) :
    ∀ c : Component, c.raised = none →
      (Component.toggles v (n + 1) c).raised = none ∧
      (Component.toggles v (n + 1) c).isVideoReady = false ∧
      (Component.toggles v (n + 1) c).error = none ∧
      Component.allTracksStopped (Component.toggles v (n + 1) c) = true ∧
      (Component.toggles v (n + 1) c).isWebcamActive =
        (if n % 2 = 0 then !c.isWebcamActive else c.isWebcamActive) := by
  induction n with
  | zero =>
      intro c hr
      have h := step_toggle v c hr
      simpa [toggles_succ, Component.toggles, Component.run] using h
  | succ k ih =>
      intro c hr
      have h := step_toggle v c hr
      have h2 := ih (Component.step v c .toggle) h.1
      rw [toggles_succ]
      refine ⟨h2.1, h2.2.1, h2.2.2.1, h2.2.2.2.1, ?_⟩
      rw [h2.2.2.2.2, h.2.2.2.2]
      rcases Nat.mod_two_eq_zero_or_one k with hk | hk
      · have : (k + 1) % 2 = 1 := by omega
        simp [hk, this]
      · have : (k + 1) % 2 = 0 := by omega
        simp [hk, this]

/-- C7 as stated fails: from the started session two clicks on the webcam button end
with `isWebcamActive = true` (a new acquisition is in flight), not in the state one click
leaves. -/
theorem toggle_twice_restarts :
    Component.startedSession.isWebcamActive = true ∧
    Component.startedSession.isVideoReady = true ∧
    Component.startedSession.raised = none ∧
    (Component.toggles .copy3 1 Component.startedSession).isWebcamActive = false ∧
    (Component.toggles .copy3 2 Component.startedSession).isWebcamActive = true ∧
    (Component.toggles .copy3 2 Component.startedSession).pendingGetUserMedia = 1 ∧
    Component.toggles .copy3 2 Component.startedSession ≠
      Component.toggles .copy3 1 Component.startedSession := by
  decide

/-- C7, amended. From an active session, `n ≥ 1` clicks on the webcam button in sequence
raise no exception and leave `isVideoReady = false`, `error = null` and every track of the
stream stopped; `isWebcamActive` is false after an odd number of clicks and true after an
even number, since `handleWebcamToggle` toggles. The effect's cleanup, which stops the
tracks, is itself idempotent. -/
theorem toggles_from_active (v : Variant) (c : Component) (n : ℕ)
    (hr : c.raised = none) (ha : c.isWebcamActive = true) (_hv : c.isVideoReady = true)
    (hn : 1 ≤ n) :
    (Component.toggles v n c).raised = none ∧
    (Component.toggles v n c).isVideoReady = false ∧
    (Component.toggles v n c).error = none ∧
    Component.allTracksStopped (Component.toggles v n c) = true ∧
    (Component.toggles v n c).isWebcamActive = decide (n % 2 = 0) ∧
    Component.cleanup (Component.cleanup (Component.toggles v n c)) =
      Component.cleanup (Component.toggles v n c) := by
  obtain ⟨k, rfl⟩ : ∃ k, n = k + 1 := ⟨n - 1, by omega⟩
  have h := toggles_aux v k c hr
  refine ⟨h.1, h.2.1, h.2.2.1, h.2.2.2.1, ?_, cleanup_idem _⟩
  rw [h.2.2.2.2, ha]
  rcases Nat.mod_two_eq_zero_or_one k with hk | hk
  · have : (k + 1) % 2 = 1 := by omega
    simp [hk, this]
  · have : (k + 1) % 2 = 0 := by omega
    simp [hk, this]

/-- C7, amended, for three clicks from the session with a live track. -/
theorem toggles_from_active_witness :
    (Component.toggles .copy3 3 Component.liveSession).raised = none ∧
    (Component.toggles .copy3 3 Component.liveSession).isVideoReady = false ∧
    (Component.toggles .copy3 3 Component.liveSession).error = none ∧
    Component.allTracksStopped (Component.toggles .copy3 3 Component.liveSession) = true ∧
    (Component.toggles .copy3 3 Component.liveSession).isWebcamActive = decide (3 % 2 = 0) ∧
    Component.cleanup (Component.cleanup (Component.toggles .copy3 3 Component.liveSession)) =
      Component.cleanup (Component.toggles .copy3 3 Component.liveSession) :=
  toggles_from_active .copy3 Component.liveSession 3 (by decide) (by decide) (by decide)
    (by decide)

theorem length_modifyLoop (f : FrameLoop → FrameLoop) (i : ℕ) (l : List FrameLoop) :
    (Component.modifyLoop f i l).length = l.length := by
  induction l generalizing i with
  | nil => cases i <;> rfl
  | cons a rest ih => cases i <;> simp [Component.modifyLoop, ih]

/-- The effect body calls `startWebcam` only when the webcam is active and the video is
not ready. -/
theorem acquisitions_webcamEffect (c : Component)
    (h : c.isWebcamActive = false ∨ c.isVideoReady = true) :
    (Component.webcamEffect c).acquisitions = c.acquisitions := by
  unfold Component.webcamEffect
  rcases h with h | h
  · simp [h]
  · cases ha : c.isWebcamActive
    · simp
    · cases hs : c.selfieSegmentationRef with
      | none => simp [h]
      | some seg =>
          simp only [h, Bool.and_self, if_true, Component.processFrame]
          split
          · rfl
          · split <;> rfl

/-- An event other than a click on the webcam button or a finished background upload
makes no `getUserMedia` call. -/
theorem acquisitions_step (v : Variant) (c : Component) (e : Event)
    (he : e ≠ .toggle) (hi : ∀ w h, e ≠ .imgLoaded w h) :
    (Component.step v c e).acquisitions = c.acquisitions := by
  unfold Component.step
  split
  · cases e with
    | toggle => exact absurd rfl he
    | imgLoaded w h => exact absurd rfl (hi w h)
    | loadModel a b =>
        cases a <;> cases b <;> cases v <;>
          simp [Component.handle, Component.commit, Component.deps, Component.loadModel]
    | initSettled ok =>
        cases ok <;>
          simp [Component.handle, Component.commit, Component.deps, Component.initSettled]
    | gumResolved t =>
        simp [Component.handle, Component.commit, Component.deps,
          Component.getUserMediaResolved]
    | gumRejected =>
        simp [Component.handle, Component.commit, Component.deps,
          Component.getUserMediaRejected]
    | loadedMetadata =>
        simp only [Component.handle, Component.commit]
        split
        · rfl
        · exact acquisitions_webcamEffect _ (Or.inr rfl)
    | chooseFile =>
        simp [Component.handle, Component.commit, Component.deps, Component.chooseFile]
    | cameraFault t =>
        simp [Component.handle, Component.commit, Component.deps]
    | cameraFrame i f =>
        simp [Component.handle, Component.commit, Component.deps, Component.cameraFrame]
    | sendSettled i =>
        simp [Component.handle, Component.commit, Component.deps, Component.sendSettled]
    | backgroundDecoded =>
        cases hb : c.backgroundImage <;>
          simp [Component.handle, Component.commit, Component.deps,
            Component.backgroundDecoded, hb]
  · rfl

theorem acquisitions_run (v : Variant) (events : List Event) :
    ∀ c : Component,
      (∀ e ∈ events, e ≠ .toggle ∧ ∀ w h, e ≠ .imgLoaded w h) →
      (Component.run v c events).acquisitions = c.acquisitions := by
  induction events with
  | nil => intro c _; rfl
  | cons e rest ih =>
      intro c hall
      have he := hall e (List.mem_cons_self e rest)
      have h := ih (Component.step v c e) (fun e' he' => hall e' (List.mem_cons_of_mem e he'))
      show (Component.run v (Component.step v c e) rest).acquisitions = c.acquisitions
      rw [h, acquisitions_step v c e he.1 he.2]

/-- While no acquisition is in flight, no metadata is awaited and the video is not
ready, an event other than a click on the webcam button or a finished background upload
keeps all of this so and starts no camera; if no camera was ever started, `onResults` is
not called. -/
theorem quiet_step (v : Variant) (c : Component) (e : Event)
    (he : e ≠ .toggle) (hi : ∀ w h, e ≠ .imgLoaded w h)
    (hp : c.pendingGetUserMedia = 0) (hm : c.awaitingMetadata = false)
    (hv : c.isVideoReady = false) :
    (Component.step v c e).pendingGetUserMedia = 0 ∧
    (Component.step v c e).awaitingMetadata = false ∧
    (Component.step v c e).isVideoReady = false ∧
    (Component.step v c e).cameras.length = c.cameras.length ∧
    (c.cameras = [] → (Component.step v c e).onResultsCalls = c.onResultsCalls) := by
  cases e with
  | toggle => exact absurd rfl he
  | imgLoaded w h => exact absurd rfl (hi w h)
  | loadModel a b =>
      cases a <;> cases b <;> cases v <;>
        simp [Component.step, Component.enabled, Component.handle, Component.commit,
          Component.deps, Component.loadModel, hp, hm, hv] <;>
        split <;> simp [hp, hm, hv]
  | initSettled ok =>
      cases ok <;>
        simp [Component.step, Component.enabled, Component.handle, Component.commit,
          Component.deps, Component.initSettled, hp, hm, hv] <;>
        split <;> simp [hp, hm, hv]
  | gumResolved t =>
      simp [Component.step, Component.enabled, hp, hm, hv]
  | gumRejected =>
      simp [Component.step, Component.enabled, hp, hm, hv]
  | loadedMetadata =>
      simp [Component.step, Component.enabled, hp, hm, hv]
  | chooseFile =>
      simp [Component.step, Component.enabled, hp, hm, hv]
  | cameraFault t =>
      simp [Component.step, Component.enabled, Component.handle, Component.commit,
        Component.deps, hp, hm, hv]
      split <;> simp [hp, hm, hv]
  | cameraFrame i f =>
      simp [Component.step, Component.enabled, Component.handle, Component.commit,
        Component.deps, Component.cameraFrame, hp, hm, hv]
      split <;> simp [hp, hm, hv, length_modifyLoop]
  | sendSettled i =>
      simp only [Component.step]
      split
      · rename_i hen
        refine ⟨?_, ?_, ?_, ?_, ?_⟩
        · simpa [Component.handle, Component.commit, Component.deps, Component.sendSettled]
            using hp
        · simpa [Component.handle, Component.commit, Component.deps, Component.sendSettled]
            using hm
        · simpa [Component.handle, Component.commit, Component.deps, Component.sendSettled]
            using hv
        · simp [Component.handle, Component.commit, Component.deps, Component.sendSettled,
            length_modifyLoop]
        · intro hnil
          simp [Component.enabled, hnil] at hen
      · exact ⟨hp, hm, hv, rfl, fun _ => rfl⟩
  | backgroundDecoded =>
      cases hb : c.backgroundImage with
      | none =>
          simp [Component.step, Component.enabled, hb, hp, hm, hv]
      | some b =>
          simp [Component.step, Component.enabled, Component.handle, Component.commit,
            Component.deps, Component.backgroundDecoded, hb, hp, hm, hv]
          split <;> simp [hp, hm, hv]

theorem quiet_run (v : Variant) (events : List Event) :
    ∀ c : Component,
      (∀ e ∈ events, e ≠ .toggle ∧ ∀ w h, e ≠ .imgLoaded w h) →
      c.pendingGetUserMedia = 0 → c.awaitingMetadata = false → c.isVideoReady = false →
      (Component.run v c events).isVideoReady = false ∧
      (Component.run v c events).cameras.length = c.cameras.length ∧
      (c.cameras = [] → (Component.run v c events).onResultsCalls = c.onResultsCalls) := by
  induction events with
  | nil => intro c _ _ _ hv; exact ⟨hv, rfl, fun _ => rfl⟩
  | cons e rest ih =>
      intro c hall hp hm hv
      have he := hall e (List.mem_cons_self e rest)
      have hq := quiet_step v c e he.1 he.2 hp hm hv
      have h := ih (Component.step v c e)
        (fun e' he' => hall e' (List.mem_cons_of_mem e he')) hq.1 hq.2.1 hq.2.2.1
      refine ⟨h.1, ?_, ?_⟩
      · show (Component.run v (Component.step v c e) rest).cameras.length = c.cameras.length
        rw [h.2.1, hq.2.2.2.1]
      · intro hnil
        have hnil' : (Component.step v c e).cameras = [] := by
          apply List.eq_nil_of_length_eq_zero
          rw [hq.2.2.2.1, hnil]; rfl
        show (Component.run v (Component.step v c e) rest).onResultsCalls = c.onResultsCalls
        rw [h.2.2 hnil', hq.2.2.2.2 hnil]

theorem step_gumRejected (v : Variant) (c : Component) (hr : c.raised = none)
    (hp : 0 < c.pendingGetUserMedia) :
    Component.step v c .gumRejected =
      { c with pendingGetUserMedia := c.pendingGetUserMedia - 1,
               error := some .cameraAccess } := by
  simp [Component.step, Component.enabled, Component.handle, Component.commit, Component.deps,
    Component.getUserMediaRejected, hr, hp]

/-- C8 as stated fails, each part in its own trace, with no click on the webcam button
after the rejection. (a) An acquisition attempt follows: a file picked during an active
session finishes loading after the rejection, `setBackgroundImage` re-runs the webcam
effect and `startWebcam` is called a third time. (b) A composite is produced: the `Camera`
started in the earlier session was never stopped, its loop sends a frame and `onResults`
is called. (c) The session becomes ready: a second `getUserMedia` call, from an earlier
click, fulfils and its `loadedmetadata` sets `isVideoReady` and starts a camera; (d) the
same when that call had fulfilled before the rejection and only its `loadedmetadata` was
awaited; (e) and when that `loadedmetadata` had already fired, `isVideoReady` is true at
the rejection. -/
theorem retry_without_toggle :
    (Component.feasible .copy3 Component.initial
        (Component.rejectionWithUploadPending ++ [.imgLoaded 100 100]) = true ∧
      (Component.run .copy3 Component.initial Component.rejectionWithUploadPending).error =
        some .cameraAccess ∧
      (Component.run .copy3 Component.initial
        Component.rejectionWithUploadPending).acquisitions = 2 ∧
      (Component.run .copy3 Component.initial
        (Component.rejectionWithUploadPending ++ [.imgLoaded 100 100])).acquisitions = 3) ∧
    (Component.feasible .copy3 Component.initial
        (Component.rejectionAfterSession ++ [.cameraFrame 0 1, .sendSettled 0]) = true ∧
      (Component.run .copy3 Component.initial Component.rejectionAfterSession).error =
        some .cameraAccess ∧
      (Component.run .copy3 Component.initial
        Component.rejectionAfterSession).pendingGetUserMedia = 0 ∧
      (Component.run .copy3 Component.initial
        Component.rejectionAfterSession).awaitingMetadata = false ∧
      (Component.run .copy3 Component.initial
        Component.rejectionAfterSession).isVideoReady = false ∧
      (Component.run .copy3 Component.initial
        Component.rejectionAfterSession).onResultsCalls = 0 ∧
      (Component.run .copy3 Component.initial
        (Component.rejectionAfterSession ++
          [.cameraFrame 0 1, .sendSettled 0])).onResultsCalls = 1) ∧
    (Component.feasible .copy3 Component.initial
        (Component.rejectionWithSecondAcquisition ++ [.gumResolved 1, .loadedMetadata])
          = true ∧
      (Component.run .copy3 Component.initial
        Component.rejectionWithSecondAcquisition).error = some .cameraAccess ∧
      (Component.run .copy3 Component.initial
        Component.rejectionWithSecondAcquisition).isVideoReady = false ∧
      (Component.run .copy3 Component.initial
        (Component.rejectionWithSecondAcquisition ++
          [.gumResolved 1, .loadedMetadata])).isVideoReady = true ∧
      (Component.run .copy3 Component.initial
        (Component.rejectionWithSecondAcquisition ++
          [.gumResolved 1, .loadedMetadata])).cameras.length = 1) ∧
    (Component.feasible .copy3 Component.initial
        (Component.rejectionAwaitingMetadata ++ [.loadedMetadata]) = true ∧
      (Component.run .copy3 Component.initial
        Component.rejectionAwaitingMetadata).isVideoReady = false ∧
      (Component.run .copy3 Component.initial
        (Component.rejectionAwaitingMetadata ++ [.loadedMetadata])).isVideoReady = true) ∧
    (Component.feasible .copy3 Component.initial Component.rejectionWhenReady = true ∧
      (Component.run .copy3 Component.initial Component.rejectionWhenReady).error =
        some .cameraAccess ∧
      (Component.run .copy3 Component.initial Component.rejectionWhenReady).isVideoReady
        = true) := by
  decide

/-- C8, amended. When a `getUserMedia` call of `startWebcam` rejects, the error becomes
the camera-access message and `isWebcamActive`, `isVideoReady` and `backgroundImage` keep
their values, so the webcam effect does not re-run; through every later sequence of events
with no click on the webcam button and no finished background upload, no acquisition is
attempted. If the rejected call was the only one in flight, no `loadedmetadata` was
awaited and `isVideoReady` was false, then through every such sequence `isVideoReady`
stays false and no camera is started, and if no camera had been started before, `onResults`
is not called: no composite is produced. -/
theorem camera_failure_no_retry (v : Variant) (c : Component)
    (hr : c.raised = none) (hp : 0 < c.pendingGetUserMedia) :
    (Component.step v c .gumRejected).error = some .cameraAccess ∧
    (Component.step v c .gumRejected).isWebcamActive = c.isWebcamActive ∧
    (Component.step v c .gumRejected).isVideoReady = c.isVideoReady ∧
    (Component.step v c .gumRejected).backgroundImage = c.backgroundImage ∧
    (Component.step v c .gumRejected).acquisitions = c.acquisitions ∧
    (∀ events : List Event,
      (∀ e ∈ events, e ≠ .toggle ∧ ∀ w h, e ≠ .imgLoaded w h) →
      (Component.run v (Component.step v c .gumRejected) events).acquisitions
        = c.acquisitions) ∧
    (c.pendingGetUserMedia = 1 → c.awaitingMetadata = false → c.isVideoReady = false →
      ∀ events : List Event,
        (∀ e ∈ events, e ≠ .toggle ∧ ∀ w h, e ≠ .imgLoaded w h) →
        (Component.run v (Component.step v c .gumRejected) events).isVideoReady = false ∧
        (Component.run v (Component.step v c .gumRejected) events).cameras.length
          = c.cameras.length ∧
        (c.cameras = [] →
          (Component.run v (Component.step v c .gumRejected) events).onResultsCalls
            = c.onResultsCalls)) := by
  rw [step_gumRejected v c hr hp]
  refine ⟨rfl, rfl, rfl, rfl, rfl, ?_, ?_⟩
  · intro events hall
    exact acquisitions_run v events _ hall
  · intro h1 hm hv events hall
    exact quiet_run v events _ hall (by simp [h1]) hm hv

/-- C8, amended, at the first acquisition of a fresh component, followed by a model
reload and a settled `initialize()`. -/
theorem camera_failure_no_retry_witness :
    (Component.run .copy3
      (Component.step .copy3
        (Component.run .copy3 Component.initial [.loadModel false false, .toggle])
        .gumRejected)
      [.loadModel false false, .initSettled true]).acquisitions = 1 ∧
    (Component.run .copy3
      (Component.step .copy3
        (Component.run .copy3 Component.initial [.loadModel false false, .toggle])
        .gumRejected)
      [.loadModel false false, .initSettled true]).onResultsCalls = 0 :=
  ⟨(camera_failure_no_retry .copy3
      (Component.run .copy3 Component.initial [.loadModel false false, .toggle])
      (by decide) (by decide)).2.2.2.2.2.1
      [.loadModel false false, .initSettled true] (by simp),
   ((camera_failure_no_retry .copy3
      (Component.run .copy3 Component.initial [.loadModel false false, .toggle])
      (by decide) (by decide)).2.2.2.2.2.2 (by decide) (by decide) (by decide)
      [.loadModel false false, .initSettled true] (by simp)).2.2 (by decide)⟩

/-- C9. A failed model load is fatal to the session in the code: when the
`SelfieSegmentation` constructor throws on mount, the error is set to the model-load
message and `isWebcamActive`, `isVideoReady` stay false, but `selfieSegmentationRef.current`
stays `null`; switching the webcam on and reaching `isWebcamActive && isVideoReady` then
makes the webcam effect call `.onResults` on `null`, which raises. -/
theorem null_model_raises (v : Variant) :
    (Component.step v Component.initial (.loadModel true false)).error = some .modelLoad ∧
    (Component.step v Component.initial (.loadModel true false)).isWebcamActive = false ∧
    (Component.step v Component.initial (.loadModel true false)).isVideoReady = false ∧
    (Component.step v Component.initial (.loadModel true false)).selfieSegmentationRef = none ∧
    Component.feasible v Component.initial
      [.loadModel true false, .toggle, .gumResolved 1, .loadedMetadata] = true ∧
    (Component.run v Component.initial
      [.loadModel true false, .toggle, .gumResolved 1, .loadedMetadata]).raised =
        some .typeErrorNullModel := by
  cases v <;> decide

/-- Each frame loop has at most one `send` outstanding, so the calls outstanding are at
most as many as the cameras started. -/
theorem outstandingSends_le_cameras (c : Component) :
    Component.outstandingSends c ≤ c.cameras.length := by
  simp [Component.outstandingSends, List.length_filter_le]

/-- C6. Single-flight inference does not survive an effect re-run. A background upload
during an active session re-runs the webcam effect, whose `processFrame` starts a second
`Camera` while the first one is never stopped; when each of the two loops receives a
frame, two `send` calls are outstanding at once. -/
theorem two_cameras_two_sends :
    Component.feasible .copy3 Component.initial Component.uploadThenFrames = true ∧
    (Component.run .copy3 Component.initial Component.uploadThenFrames).cameras.length = 2 ∧
    Component.outstandingSends
      (Component.run .copy3 Component.initial Component.uploadThenFrames) = 2 := by
  decide

/-- C4. The stored background does not always have the canvas's dimensions. When a picked
image loads after `srcObject` was reassigned and before `loadedmetadata`, `img.onload`
sizes `tempCanvas` from `videoWidth = videoHeight = 0`, so a 0×0 background is stored
while the canvas is still 1280×720. And after an ordinary upload `onResults` is called
while the stored `Image` has not loaded its data URL and reports width and height 0. -/
theorem background_not_canvas_sized :
    Component.feasible .copy3 Component.initial Component.uploadBeforeMetadata = true ∧
    (Component.run .copy3 Component.initial Component.uploadBeforeMetadata).backgroundImage
      = some ⟨0, 0, 0, false⟩ ∧
    (Component.run .copy3 Component.initial Component.uploadBeforeMetadata).canvasWidth
      = 1280 ∧
    (Component.run .copy3 Component.initial Component.uploadBeforeMetadata).canvasHeight
      = 720 ∧
    Component.feasible .copy3 Component.initial Component.compositeBeforeDecode = true ∧
    (Component.run .copy3 Component.initial Component.compositeBeforeDecode).onResultsCalls
      = 1 ∧
    (Component.run .copy3 Component.initial Component.compositeBeforeDecode).canvasWidth
      = 1280 ∧
    (Component.run .copy3 Component.initial
      Component.compositeBeforeDecode).backgroundImage.map BackgroundImg.currentWidth
      = some 0 := by
  decide

end Background
